import Mathlib

/-!
# I2CParallel2: a shallow embedding of the I2C parallel bus expander drivers

The driver classes of `I2CParallel2.h`, `I2CParallel8574.cpp`, `I2CParallel9534.cpp`
and `I2CParallel9538.cpp` are embedded as pure functions over an explicit system
state: the fields of the driver object plus the world outside it (the `Wire`
transport and the GPIO pins).

* Machine integers are natural numbers; every conversion to `uint8_t` is an
  explicit `% 256`, and a `size_t` is a natural number below `Arch.sizeMod`.
* The transport is external.  Every call the driver makes is appended to a call
  trace, and every value the transport hands back (`Wire.write`,
  `Wire.requestFrom`, `Wire.read`) is drawn from an arbitrary reply function, so
  that a theorem quantified over the world covers every transport behaviour.
  Where a theorem depends on it, the contract of the transport is a hypothesis: a
  call that writes or requests one byte reports zero or one byte.
* Virtual dispatch is a `match` on the variant tag of the object.
-/

namespace I2CParallel2

/-! ## Constants of `I2CParallel2.h` -/

def UNINITIALIZED_I2C_ADDR : Nat := 0

def I2C_PCF8574_MIN_ADDR : Nat := 0x20
def I2C_PCF8574_MAX_ADDR : Nat := 0x27
def I2C_PCF8574A_MIN_ADDR : Nat := 0x38
def I2C_PCF8574A_MAX_ADDR : Nat := 0x3F

def I2C_PCA9534_MIN_ADDR : Nat := 0x20
def I2C_PCA9534_MAX_ADDR : Nat := 0x27
def I2C_PCA9534A_MIN_ADDR : Nat := 0x38
def I2C_PCA9534A_MAX_ADDR : Nat := 0x3F
def I2C_PCA9538_MIN_ADDR : Nat := 0x70
def I2C_PCA9538_MAX_ADDR : Nat := 0x73

def I2C_SPEED_FAST : Nat := 400000
def I2C_SPEED_STANDARD : Nat := 100000
def I2C_PARALLEL_MAX_BUS_SPEED : Nat := I2C_SPEED_FAST

def I2C_PARALLEL_MAX_VAL : Nat := 0xFF
def I2C_PARALLEL_STARTUP_INPUT_STATE : Nat := 0xFF
def I2C_MAX_BIT_POS : Nat := 7
def INVALID_GPIO_PIN : Nat := 255

def I2C_PARALLEL_ERR_OK : Nat := 0
def I2C_PARALLEL_ERR_ADDR : Nat := 1
def I2C_PARALLEL_ERR_BUS_SPEED : Nat := 2
def I2C_PARALLEL_ERR_UNINITIALIZED : Nat := 3
def I2C_PARALLEL_ERR_BUS_IO : Nat := 4
def I2C_PARALLEL_ERR_CARRY : Nat := 5
def I2C_PARALLEL_ERR_INVALID_PIN : Nat := 6

/-! ## Constants local to the `.cpp` files -/

def REG_INPUT : Nat := 0x00
def REG_OUTPUT : Nat := 0x01
def REG_CONFIG : Nat := 0x02
def REG_POLARITY : Nat := 0x03

def SEND_STOP : Nat := 1
def I2C_PARALLEL_ADDR_MASK : Nat := 0x7F
def I2C_PARALLEL_WIRE_TIMEOUT : Nat := 25000

/-- Hold time of `I2CParallel8574.cpp`, in microseconds. -/
def I2C_PARALLEL_HOLD_TIME_MICROS_8574 : Nat := 4
/-- Hold time of `I2CParallel9534.cpp`, in microseconds. -/
def I2C_PARALLEL_HOLD_TIME_MICROS_9534 : Nat := 1

/-! ## The world outside the driver -/

/-- Target architecture.  The source distinguishes `ARDUINO_ARCH_SAMD` and
`ARDUINO_TEENSY41` from everything else, which its comment calls the AVR default. -/
inductive Arch where
  | avr
  | samd
  | teensy41
  deriving DecidableEq, Repr

/-- Number of values of a `size_t`: 16 bits on AVR, 32 bits on SAMD and Teensy 4.1. -/
def Arch.sizeMod : Arch → Nat
  | .avr => 65536
  | .samd => 4294967296
  | .teensy41 => 4294967296

/-- Arduino pin modes used by the drivers. -/
inductive PinMode where
  | OUTPUT
  | INPUT_PULLUP
  deriving DecidableEq, Repr

/-- Arduino pin levels. -/
inductive Level where
  | LOW
  | HIGH
  deriving DecidableEq, Repr

/-- One call into the transport (`Wire`) or the GPIO layer, with its arguments. -/
inductive Call where
  | setClock (hz : Nat)
  | setTimeout (us : Nat)
  | setWireTimeout (us : Nat) (resetOnTimeout : Bool)
  | beginTransmission (addr : Nat)
  | write (b : Nat)
  | endTransmission (sendStop : Nat)
  | requestFrom (addr : Nat) (quantity : Nat)
  | read
  | pinMode (pin : Nat) (mode : PinMode)
  | digitalWrite (pin : Nat) (level : Level)
  | delayMicroseconds (us : Nat)
  deriving DecidableEq, Repr

/-- The world: the architecture, the values the transport will hand back (the
`n`-th value-returning call gets `replies n`), how many replies were consumed, and
the trace of calls made so far, oldest first. -/
structure World where
  arch : Arch
  replies : Nat → Nat
  consumed : Nat
  trace : List Call

/-- Append a call to the trace. -/
def World.log (w : World) (c : Call) : World :=
  { w with trace := w.trace ++ [c] }

/-- Take the next reply of the transport. -/
def World.reply (w : World) : Nat × World :=
  (w.replies w.consumed, { w with consumed := w.consumed + 1 })

namespace Wire

def setClock (hz : Nat) (w : World) : World := w.log (.setClock hz)

def setTimeout (us : Nat) (w : World) : World := w.log (.setTimeout us)

def setWireTimeout (us : Nat) (resetOnTimeout : Bool) (w : World) : World :=
  w.log (.setWireTimeout us resetOnTimeout)

def beginTransmission (addr : Nat) (w : World) : World := w.log (.beginTransmission addr)

/-- The call `Wire.write(b)`; the result is a `size_t`. -/
def write (b : Nat) (w : World) : Nat × World :=
  let r := (w.log (.write b)).reply
  (r.1 % w.arch.sizeMod, r.2)

def endTransmission (sendStop : Nat) (w : World) : World := w.log (.endTransmission sendStop)

/-- The call `Wire.requestFrom(addr, quantity)`, as stored into a `uint8_t`. -/
def requestFrom (addr quantity : Nat) (w : World) : Nat × World :=
  let r := (w.log (.requestFrom addr quantity)).reply
  (r.1 % 256, r.2)

/-- The call `Wire.read()`, as stored into a `uint8_t`. -/
def read (w : World) : Nat × World :=
  let r := (w.log .read).reply
  (r.1 % 256, r.2)

end Wire

/-! ## The driver object -/

/-- The concrete classes. -/
inductive Variant where
  | pcf8574
  | pca9534
  | pca9538
  deriving DecidableEq, Repr

/-- Fields of a driver object.  `_polarityState` belongs to `I2CParallel9534` and
its subclass, `_resetPin` to `I2CParallel9538`; the other classes never touch them. -/
structure Device where
  variant : Variant
  _outputState : Nat
  _inputState : Nat
  _i2cAddr : Nat
  _error : Nat
  _polarityState : Nat
  _resetPin : Nat
  deriving DecidableEq, Repr

/-- A driver object together with the world it talks to. -/
structure Sys where
  dev : Device
  hw : World

/-- Result of `getByte(nBytesRead)`: the returned byte, the out-parameter, the state. -/
structure GetByteResult where
  value : Nat
  nBytesRead : Nat
  sys : Sys

/-- Constructor `I2CParallel8574()`. -/
def I2CParallel8574.new : Device :=
  { variant := .pcf8574
    _i2cAddr := UNINITIALIZED_I2C_ADDR
    _error := I2C_PARALLEL_ERR_OK
    _outputState := I2C_PARALLEL_STARTUP_INPUT_STATE
    _inputState := I2C_PARALLEL_STARTUP_INPUT_STATE
    _polarityState := 0
    _resetPin := INVALID_GPIO_PIN }

/-- Constructor `I2CParallel9534()`. -/
def I2CParallel9534.new : Device :=
  { variant := .pca9534
    _i2cAddr := UNINITIALIZED_I2C_ADDR
    _error := I2C_PARALLEL_ERR_OK
    _outputState := I2C_PARALLEL_STARTUP_INPUT_STATE
    _inputState := I2C_PARALLEL_STARTUP_INPUT_STATE
    _polarityState := 0
    _resetPin := INVALID_GPIO_PIN }

/-- Constructor `I2CParallel9538(resetPin)`. -/
def I2CParallel9538.new (resetPin : Nat) : Device :=
  { variant := .pca9538
    _i2cAddr := UNINITIALIZED_I2C_ADDR
    _error := I2C_PARALLEL_ERR_OK
    _outputState := I2C_PARALLEL_STARTUP_INPUT_STATE
    _inputState := I2C_PARALLEL_STARTUP_INPUT_STATE
    _polarityState := 0
    _resetPin := resetPin }

/-- A fresh world on which nothing has been called yet. -/
def World.fresh (arch : Arch) (replies : Nat → Nat) : World :=
  { arch := arch, replies := replies, consumed := 0, trace := [] }

/-- The timeout call selected by the preprocessor in both `init` functions. -/
def wireTimeout (w : World) : World :=
  match w.arch with
  | .avr => Wire.setWireTimeout I2C_PARALLEL_WIRE_TIMEOUT true w
  | .samd => Wire.setTimeout I2C_PARALLEL_WIRE_TIMEOUT w
  | .teensy41 => Wire.setTimeout I2C_PARALLEL_WIRE_TIMEOUT w

/-! ## `I2CParallel8574.cpp` -/

def I2CParallel8574.init (i2cAddr busSpeed : Nat) (s : Sys) : Sys :=
  let d := { s.dev with _error := I2C_PARALLEL_ERR_OK }
  let d := { d with _i2cAddr := i2cAddr &&& I2C_PARALLEL_ADDR_MASK }
  let d :=
    if d._i2cAddr < I2C_PCF8574_MIN_ADDR ∨
        (d._i2cAddr > I2C_PCF8574_MAX_ADDR ∧ d._i2cAddr < I2C_PCF8574A_MIN_ADDR) ∨
        d._i2cAddr > I2C_PCF8574A_MAX_ADDR then
      { d with _error := I2C_PARALLEL_ERR_ADDR }
    else d
  let d :=
    if busSpeed > I2C_PARALLEL_MAX_BUS_SPEED then
      { d with _error := I2C_PARALLEL_ERR_BUS_SPEED }
    else d
  let w := Wire.setClock busSpeed s.hw
  let w := wireTimeout w
  { dev := d, hw := w }

def I2CParallel8574.setByte (val : Nat) (s : Sys) : Nat × Sys :=
  if s.dev._i2cAddr = UNINITIALIZED_I2C_ADDR then
    (0, { s with dev := { s.dev with _error := I2C_PARALLEL_ERR_UNINITIALIZED,
                                     _outputState := val } })
  else
    let w := Wire.beginTransmission s.dev._i2cAddr s.hw
    let r := Wire.write val w
    let numWritten := r.1
    let d := if numWritten ≠ 1 then { s.dev with _error := I2C_PARALLEL_ERR_BUS_IO } else s.dev
    let w := Wire.endTransmission SEND_STOP r.2
    (numWritten, { dev := { d with _outputState := val }, hw := w })

def I2CParallel8574.getByte (s : Sys) : GetByteResult :=
  if s.dev._i2cAddr = UNINITIALIZED_I2C_ADDR then
    let d := { s.dev with _error := I2C_PARALLEL_ERR_UNINITIALIZED }
    { value := d._inputState, nBytesRead := 0, sys := { s with dev := d } }
  else
    let r := Wire.requestFrom s.dev._i2cAddr 1 s.hw
    let nBytesRead := r.1
    if nBytesRead ≠ 1 then
      let d := { s.dev with _error := I2C_PARALLEL_ERR_BUS_IO }
      { value := d._inputState, nBytesRead := nBytesRead, sys := { dev := d, hw := r.2 } }
    else
      let b := Wire.read r.2
      let d := { s.dev with _inputState := b.1 }
      { value := d._inputState, nBytesRead := nBytesRead, sys := { dev := d, hw := b.2 } }

/-! ## `I2CParallel9534.cpp` -/

def I2CParallel9534.init (i2cAddr busSpeed : Nat) (s : Sys) : Sys :=
  let d := { s.dev with _error := I2C_PARALLEL_ERR_OK }
  let d := { d with _i2cAddr := i2cAddr &&& I2C_PARALLEL_ADDR_MASK }
  let d :=
    if (d._i2cAddr < I2C_PCA9534_MIN_ADDR ∨ d._i2cAddr > I2C_PCA9534_MAX_ADDR) ∧
        (d._i2cAddr < I2C_PCA9534A_MIN_ADDR ∨ d._i2cAddr > I2C_PCA9534A_MAX_ADDR) ∧
        (d._i2cAddr < I2C_PCA9538_MIN_ADDR ∨ d._i2cAddr > I2C_PCA9538_MAX_ADDR) then
      { d with _error := I2C_PARALLEL_ERR_ADDR }
    else d
  let d :=
    if busSpeed > I2C_PARALLEL_MAX_BUS_SPEED then
      { d with _error := I2C_PARALLEL_ERR_BUS_SPEED }
    else d
  let w := Wire.setClock busSpeed s.hw
  let w := wireTimeout w
  { dev := d, hw := w }

def I2CParallel9534.setByte (val : Nat) (s : Sys) : Nat × Sys :=
  if s.dev._i2cAddr = UNINITIALIZED_I2C_ADDR then
    let numWritten := 0
    (if numWritten = 2 then 1 else 0,
      { s with dev := { s.dev with _error := I2C_PARALLEL_ERR_UNINITIALIZED,
                                   _outputState := val } })
  else
    let w := Wire.beginTransmission s.dev._i2cAddr s.hw
    let r := Wire.write REG_OUTPUT w
    let r :=
      if r.1 = 1 then
        let r2 := Wire.write val r.2
        ((r.1 + r2.1) % w.arch.sizeMod, r2.2)
      else r
    if r.1 ≠ 2 then
      let numWritten := 0
      (if numWritten = 2 then 1 else 0,
        { dev := { s.dev with _error := I2C_PARALLEL_ERR_BUS_IO, _outputState := val },
          hw := r.2 })
    else
      let w := Wire.endTransmission SEND_STOP r.2
      (if r.1 = 2 then 1 else 0, { dev := { s.dev with _outputState := val }, hw := w })

def I2CParallel9534.getByte (s : Sys) : GetByteResult :=
  if s.dev._i2cAddr = UNINITIALIZED_I2C_ADDR then
    let d := { s.dev with _error := I2C_PARALLEL_ERR_UNINITIALIZED }
    { value := d._inputState, nBytesRead := 0, sys := { s with dev := d } }
  else
    let w := Wire.beginTransmission s.dev._i2cAddr s.hw
    let w := (Wire.write REG_INPUT w).2
    let w := Wire.endTransmission 0 w
    let r := Wire.requestFrom s.dev._i2cAddr 1 w
    let nBytesRead := r.1
    if nBytesRead ≠ 1 then
      let d := { s.dev with _error := I2C_PARALLEL_ERR_BUS_IO }
      { value := d._inputState, nBytesRead := nBytesRead, sys := { dev := d, hw := r.2 } }
    else
      let b := Wire.read r.2
      let d := { s.dev with _inputState := b.1 }
      let w := Wire.beginTransmission d._i2cAddr b.2
      let w := (Wire.write REG_OUTPUT w).2
      let w := Wire.endTransmission SEND_STOP w
      { value := d._inputState, nBytesRead := nBytesRead, sys := { dev := d, hw := w } }

def I2CParallel9534.enableInputs (mask : Nat) (s : Sys) : Sys :=
  if s.dev._i2cAddr = UNINITIALIZED_I2C_ADDR then
    { s with dev := { s.dev with _error := I2C_PARALLEL_ERR_UNINITIALIZED } }
  else
    let w := Wire.beginTransmission s.dev._i2cAddr s.hw
    let w := (Wire.write REG_CONFIG w).2
    let w := (Wire.write mask w).2
    let w := Wire.endTransmission 0 w
    { s with hw := w }

def I2CParallel9534.waitForValid (s : Sys) : Sys :=
  { s with hw := s.hw.log (.delayMicroseconds I2C_PARALLEL_HOLD_TIME_MICROS_9534) }

def I2CParallel9534.setInputPolarity (polarity : Nat) (s : Sys) : Sys :=
  let d := { s.dev with _polarityState := polarity }
  if d._i2cAddr = UNINITIALIZED_I2C_ADDR then
    { s with dev := { d with _error := I2C_PARALLEL_ERR_UNINITIALIZED } }
  else
    let w := Wire.beginTransmission d._i2cAddr s.hw
    let w := (Wire.write REG_POLARITY w).2
    let w := (Wire.write d._polarityState w).2
    let w := Wire.endTransmission SEND_STOP w
    { dev := d, hw := w }

/-! ## `I2CParallel9538.cpp` -/

def I2CParallel9538.init (i2cAddr busSpeed : Nat) (s : Sys) : Sys :=
  let s := I2CParallel9534.init i2cAddr busSpeed s
  if s.dev._resetPin ≠ INVALID_GPIO_PIN then
    let w := s.hw.log (.pinMode s.dev._resetPin .OUTPUT)
    let w := w.log (.digitalWrite s.dev._resetPin .HIGH)
    { s with hw := w }
  else s

def I2CParallel9538.reset (s : Sys) : Sys :=
  if s.dev._resetPin = INVALID_GPIO_PIN then
    { s with dev := { s.dev with _error := I2C_PARALLEL_ERR_INVALID_PIN } }
  else
    let w := s.hw.log (.digitalWrite s.dev._resetPin .LOW)
    let w := w.log (.delayMicroseconds 1)
    let w := w.log (.digitalWrite s.dev._resetPin .HIGH)
    { s with hw := w }

/-! ## The base class `I2CParallel` of `I2CParallel2.h` -/

namespace I2CParallel

/-- Virtual `init`. -/
def init (i2cAddr busSpeed : Nat) (s : Sys) : Sys :=
  match s.dev.variant with
  | .pcf8574 => I2CParallel8574.init i2cAddr busSpeed s
  | .pca9534 => I2CParallel9534.init i2cAddr busSpeed s
  | .pca9538 => I2CParallel9538.init i2cAddr busSpeed s

/-- Virtual `setByte`; `I2CParallel9538` inherits the final override of `I2CParallel9534`. -/
def setByte (val : Nat) (s : Sys) : Nat × Sys :=
  match s.dev.variant with
  | .pcf8574 => I2CParallel8574.setByte val s
  | .pca9534 => I2CParallel9534.setByte val s
  | .pca9538 => I2CParallel9534.setByte val s

/-- Virtual `getByte(nBytesRead)`. -/
def getByte (s : Sys) : GetByteResult :=
  match s.dev.variant with
  | .pcf8574 => I2CParallel8574.getByte s
  | .pca9534 => I2CParallel9534.getByte s
  | .pca9538 => I2CParallel9534.getByte s

def getLastInputState (s : Sys) : Nat := s.dev._inputState

def getLastOutputState (s : Sys) : Nat := s.dev._outputState

def setOr (val : Nat) (s : Sys) : Nat × Sys :=
  setByte ((s.dev._outputState ||| val) % 256) s

def setAnd (val : Nat) (s : Sys) : Nat × Sys :=
  setByte ((s.dev._outputState &&& val) % 256) s

def setXor (val : Nat) (s : Sys) : Nat × Sys :=
  setByte ((s.dev._outputState ^^^ val) % 256) s

/-- Conversion of an `int` to `uint8_t`. -/
def toUInt8 (i : Int) : Nat := (i % 256).toNat

def setBit (bitPos : Nat) (s : Sys) : Nat × Sys :=
  if bitPos > I2C_MAX_BIT_POS then (0, s)
  else
    let mask := (1 <<< bitPos) % 256
    setOr mask s

def clrBit (bitPos : Nat) (s : Sys) : Nat × Sys :=
  if bitPos > I2C_MAX_BIT_POS then (0, s)
  else
    let mask := toUInt8 (-((1 <<< bitPos : Nat) : Int) - 1)
    setAnd mask s

def toggleBit (bitPos : Nat) (s : Sys) : Nat × Sys :=
  if bitPos > I2C_MAX_BIT_POS then (0, s)
  else
    let setMask := (1 <<< bitPos) % 256
    if s.dev._outputState &&& setMask ≠ 0 then clrBit bitPos s
    else setBit bitPos s

def increment (s : Sys) : Nat × Sys :=
  if s.dev._outputState = I2C_PARALLEL_MAX_VAL then
    setByte 0 { s with dev := { s.dev with _error := I2C_PARALLEL_ERR_CARRY } }
  else
    setByte ((s.dev._outputState + 1) % 256) s

def clearError (s : Sys) : Sys :=
  { s with dev := { s.dev with _error := I2C_PARALLEL_ERR_OK } }

def getError (s : Sys) : Nat := s.dev._error

def hasError (s : Sys) : Bool := s.dev._error != I2C_PARALLEL_ERR_OK

/-- The accessor `getAddress()`; `_error` is `mutable`, so the state is returned too. -/
def getAddress (s : Sys) : Nat × Sys :=
  if s.dev._i2cAddr = UNINITIALIZED_I2C_ADDR then
    let s := { s with dev := { s.dev with _error := I2C_PARALLEL_ERR_UNINITIALIZED } }
    (s.dev._i2cAddr, s)
  else (s.dev._i2cAddr, s)

end I2CParallel

/-- The override `I2CParallel8574::enableInputs`. -/
def I2CParallel8574.enableInputs (mask : Nat) (s : Sys) : Sys :=
  (I2CParallel.setOr mask s).2

def I2CParallel8574.waitForValid (s : Sys) : Sys :=
  { s with hw := s.hw.log (.delayMicroseconds I2C_PARALLEL_HOLD_TIME_MICROS_8574) }

/-- Virtual `enableInputs`. -/
def I2CParallel.enableInputs (mask : Nat) (s : Sys) : Sys :=
  match s.dev.variant with
  | .pcf8574 => I2CParallel8574.enableInputs mask s
  | .pca9534 => I2CParallel9534.enableInputs mask s
  | .pca9538 => I2CParallel9534.enableInputs mask s

/-- Virtual `waitForValid`. -/
def I2CParallel.waitForValid (s : Sys) : Sys :=
  match s.dev.variant with
  | .pcf8574 => I2CParallel8574.waitForValid s
  | .pca9534 => I2CParallel9534.waitForValid s
  | .pca9538 => I2CParallel9534.waitForValid s

/-- Every field of the object holds a `uint8_t`. -/
def Device.WF (d : Device) : Prop :=
  d._outputState < 256 ∧ d._inputState < 256 ∧ d._i2cAddr < 256 ∧ d._error < 256 ∧
    d._polarityState < 256 ∧ d._resetPin < 256

instance (d : Device) : Decidable d.WF := by
  unfold Device.WF; infer_instance

/-! ## Vocabulary of the specification -/

/-- Valid addresses of the quasi-bidirectional family in the words of the
specification: 0x20–0x27 and 0x38–0x3F. -/
def Spec.validAddr8574 (a : Nat) : Prop :=
  (0x20 ≤ a ∧ a ≤ 0x27) ∨ (0x38 ≤ a ∧ a ≤ 0x3F)

/-- Valid addresses of the register-addressed family in the words of the
specification: 0x20–0x27, 0x38–0x3F and 0x70–0x73. -/
def Spec.validAddr9534 (a : Nat) : Prop :=
  (0x20 ≤ a ∧ a ≤ 0x27) ∨ (0x38 ≤ a ∧ a ≤ 0x3F) ∨ (0x70 ≤ a ∧ a ≤ 0x73)

/-- Valid addresses of the family a variant belongs to. -/
def Spec.validAddr : Variant → Nat → Prop
  | .pcf8574, a => Spec.validAddr8574 a
  | .pca9534, a => Spec.validAddr9534 a
  | .pca9538, a => Spec.validAddr9534 a

instance (a : Nat) : Decidable (Spec.validAddr8574 a) := by
  unfold Spec.validAddr8574; infer_instance

instance (a : Nat) : Decidable (Spec.validAddr9534 a) := by
  unfold Spec.validAddr9534; infer_instance

instance (v : Variant) (a : Nat) : Decidable (Spec.validAddr v a) := by
  cases v <;> simp only [Spec.validAddr] <;> infer_instance

/-- The `k`-th value the transport will hand back from now on. -/
def World.upcoming (w : World) (k : Nat) : Nat := w.replies (w.consumed + k)

/-- The byte count `Wire.requestFrom` reports to a `getByte` started in state `s`.
The quasi-bidirectional class asks for it first; the register-addressed classes
first consume the reply to `Wire.write(REG_INPUT)`. -/
def requestCount (s : Sys) : Nat :=
  match s.dev.variant with
  | .pcf8574 => s.hw.upcoming 0 % 256
  | .pca9534 => s.hw.upcoming 1 % 256
  | .pca9538 => s.hw.upcoming 1 % 256

/-! ## Concrete systems used to exercise the theorems -/

/-- A transport that reports the listed values in order, and 0 once the list is used up. -/
def Example.scripted (l : List Nat) : Nat → Nat := fun n => l.getD n 0

/-- A quasi-bidirectional device initialised at address 0x20 on an AVR board. -/
def Example.sys8574 (l : List Nat) : Sys :=
  I2CParallel.init 0x20 400000
    { dev := I2CParallel8574.new, hw := World.fresh .avr (Example.scripted l) }

/-- A register-addressed device initialised at address 0x20 on an AVR board. -/
def Example.sys9534 (l : List Nat) : Sys :=
  I2CParallel.init 0x20 400000
    { dev := I2CParallel9534.new, hw := World.fresh .avr (Example.scripted l) }

/-- The calls both `init` functions make on an AVR board at 400 kHz. -/
def Example.initTrace : List Call :=
  [Call.setClock 400000, Call.setWireTimeout 25000 true]

/-! ## Harness for sequences of calls -/

/-- The state after `n` consecutive calls of `increment()`. -/
def I2CParallel.incrementTimes : Nat → Sys → Sys
  | 0, s => s
  | n + 1, s => (I2CParallel.increment (I2CParallel.incrementTimes n s)).2

/-- A transport that accepts every write: every count it will report from now on is 1. -/
def World.acceptsEveryWrite (w : World) : Prop :=
  ∀ k, w.upcoming k % w.arch.sizeMod = 1

/-- The operations of the public surface that neither initialise the object nor clear
its error code. -/
inductive Op where
  | setByte (val : Nat)
  | getByte
  | setOr (val : Nat)
  | setAnd (val : Nat)
  | setXor (val : Nat)
  | setBit (bitPos : Nat)
  | clrBit (bitPos : Nat)
  | toggleBit (bitPos : Nat)
  | increment
  | enableInputs (mask : Nat)
  | setInputPolarity (polarity : Nat)
  | reset
  | getAddress
  deriving DecidableEq, Repr

/-- The state after one operation.  `setInputPolarity` and `reset` exist only in the
register-addressed and reset-capable classes; here they are applied whatever the tag, so
a statement about every operation and every state covers more than C++ lets one call. -/
def Op.run : Op → Sys → Sys
  | .setByte v, s => (I2CParallel.setByte v s).2
  | .getByte, s => (I2CParallel.getByte s).sys
  | .setOr v, s => (I2CParallel.setOr v s).2
  | .setAnd v, s => (I2CParallel.setAnd v s).2
  | .setXor v, s => (I2CParallel.setXor v s).2
  | .setBit p, s => (I2CParallel.setBit p s).2
  | .clrBit p, s => (I2CParallel.clrBit p s).2
  | .toggleBit p, s => (I2CParallel.toggleBit p s).2
  | .increment, s => (I2CParallel.increment s).2
  | .enableInputs m, s => I2CParallel.enableInputs m s
  | .setInputPolarity p, s => I2CParallel9534.setInputPolarity p s
  | .reset, s => I2CParallel9538.reset s
  | .getAddress, s => (I2CParallel.getAddress s).2

/-- The state after a sequence of operations, first to last. -/
def runOps : List Op → Sys → Sys
  | [], s => s
  | op :: ops, s => runOps ops (op.run s)

/-- The `k`-th upcoming reply, read as the byte count of a write, is `n`. -/
def Spec.writeCountIs (s : Sys) (k n : Nat) : Prop :=
  s.hw.upcoming k % s.hw.arch.sizeMod = n

/-- A `setByte` started in `s` meets no failure: the device is initialised and every
write it makes reports exactly one byte. -/
def Spec.setByteSucceeds (s : Sys) : Prop :=
  s.dev._i2cAddr ≠ UNINITIALIZED_I2C_ADDR ∧
    match s.dev.variant with
    | .pcf8574 => Spec.writeCountIs s 0 1
    | .pca9534 => Spec.writeCountIs s 0 1 ∧ Spec.writeCountIs s 1 1
    | .pca9538 => Spec.writeCountIs s 0 1 ∧ Spec.writeCountIs s 1 1

/-- A `setByte` started in `s` fails: the device is uninitialised, or a write it makes
reports no byte. -/
def Spec.setByteFails (s : Sys) : Prop :=
  s.dev._i2cAddr = UNINITIALIZED_I2C_ADDR ∨
    match s.dev.variant with
    | .pcf8574 => Spec.writeCountIs s 0 0
    | .pca9534 => Spec.writeCountIs s 0 0 ∨ (Spec.writeCountIs s 0 1 ∧ Spec.writeCountIs s 1 0)
    | .pca9538 => Spec.writeCountIs s 0 0 ∨ (Spec.writeCountIs s 0 1 ∧ Spec.writeCountIs s 1 0)

/-- A `getByte` started in `s` meets no failure: the device is initialised, the byte
request reports exactly one byte, and for the register-addressed classes the two
register-address writes report one byte each. -/
def Spec.getByteSucceeds (s : Sys) : Prop :=
  s.dev._i2cAddr ≠ UNINITIALIZED_I2C_ADDR ∧ requestCount s = 1 ∧
    match s.dev.variant with
    | .pcf8574 => True
    | .pca9534 => Spec.writeCountIs s 0 1 ∧ Spec.writeCountIs s 3 1
    | .pca9538 => Spec.writeCountIs s 0 1 ∧ Spec.writeCountIs s 3 1

/-- A `getByte` started in `s` fails: the device is uninitialised, or the byte request
reports no byte. -/
def Spec.getByteFails (s : Sys) : Prop :=
  s.dev._i2cAddr = UNINITIALIZED_I2C_ADDR ∨ requestCount s = 0

/-- An `enableInputs` started in `s` meets no failure: for the quasi-bidirectional
class it is a `setByte`; for the register-addressed classes the device is initialised and
both writes report one byte. -/
def Spec.enableInputsSucceeds (s : Sys) : Prop :=
  match s.dev.variant with
  | .pcf8574 => Spec.setByteSucceeds s
  | .pca9534 => s.dev._i2cAddr ≠ UNINITIALIZED_I2C_ADDR ∧
      Spec.writeCountIs s 0 1 ∧ Spec.writeCountIs s 1 1
  | .pca9538 => s.dev._i2cAddr ≠ UNINITIALIZED_I2C_ADDR ∧
      Spec.writeCountIs s 0 1 ∧ Spec.writeCountIs s 1 1

/-- An `enableInputs` started in `s` fails in a way the driver looks for: for the
quasi-bidirectional class as a `setByte` does; for the register-addressed classes when the
device is uninitialised. -/
def Spec.enableInputsFails (s : Sys) : Prop :=
  match s.dev.variant with
  | .pcf8574 => Spec.setByteFails s
  | .pca9534 => s.dev._i2cAddr = UNINITIALIZED_I2C_ADDR
  | .pca9538 => s.dev._i2cAddr = UNINITIALIZED_I2C_ADDR

/-- The operation, started in `s`, meets no failure in the sense of the specification:
the device is initialised, every transport call reports the expected byte count,
`increment()` does not carry and `reset()` finds a connected pin.  A bit position above 7
is a no-op, not a failure. -/
def Op.succeeds : Op → Sys → Prop
  | .setByte _, s => Spec.setByteSucceeds s
  | .getByte, s => Spec.getByteSucceeds s
  | .setOr _, s => Spec.setByteSucceeds s
  | .setAnd _, s => Spec.setByteSucceeds s
  | .setXor _, s => Spec.setByteSucceeds s
  | .setBit p, s => p > 7 ∨ Spec.setByteSucceeds s
  | .clrBit p, s => p > 7 ∨ Spec.setByteSucceeds s
  | .toggleBit p, s => p > 7 ∨ Spec.setByteSucceeds s
  | .increment, s => s.dev._outputState ≠ 255 ∧ Spec.setByteSucceeds s
  | .enableInputs _, s => Spec.enableInputsSucceeds s
  | .setInputPolarity _, s => s.dev._i2cAddr ≠ UNINITIALIZED_I2C_ADDR ∧
      Spec.writeCountIs s 0 1 ∧ Spec.writeCountIs s 1 1
  | .reset, s => s.dev._resetPin ≠ INVALID_GPIO_PIN
  | .getAddress, s => s.dev._i2cAddr ≠ UNINITIALIZED_I2C_ADDR

/-- The operation, started in `s`, fails in a way the driver looks for: it finds the
device uninitialised, a write of `setByte` or the byte request of `getByte` reports no
byte, `increment()` carries, or `reset()` finds the pin unconnected. -/
def Op.fails : Op → Sys → Prop
  | .setByte _, s => Spec.setByteFails s
  | .getByte, s => Spec.getByteFails s
  | .setOr _, s => Spec.setByteFails s
  | .setAnd _, s => Spec.setByteFails s
  | .setXor _, s => Spec.setByteFails s
  | .setBit p, s => p ≤ 7 ∧ Spec.setByteFails s
  | .clrBit p, s => p ≤ 7 ∧ Spec.setByteFails s
  | .toggleBit p, s => p ≤ 7 ∧ Spec.setByteFails s
  | .increment, s => s.dev._outputState = 255 ∨ Spec.setByteFails s
  | .enableInputs _, s => Spec.enableInputsFails s
  | .setInputPolarity _, s => s.dev._i2cAddr = UNINITIALIZED_I2C_ADDR
  | .reset, s => s.dev._resetPin = INVALID_GPIO_PIN
  | .getAddress, s => s.dev._i2cAddr = UNINITIALIZED_I2C_ADDR

/-- No operation of the sequence, run from `s`, meets a failure. -/
def allSucceed : List Op → Sys → Prop
  | [], _ => True
  | op :: ops, s => op.succeeds s ∧ allSucceed ops (op.run s)

/-- Some operation of the sequence, run from `s`, fails in a way the driver looks for. -/
def someFails : List Op → Sys → Prop
  | [], _ => False
  | op :: ops, s => op.fails s ∨ someFails ops (op.run s)

instance (s : Sys) (k n : Nat) : Decidable (Spec.writeCountIs s k n) := by
  unfold Spec.writeCountIs; infer_instance

instance (s : Sys) : Decidable (Spec.setByteSucceeds s) := by
  unfold Spec.setByteSucceeds; cases s.dev.variant <;> infer_instance

instance (s : Sys) : Decidable (Spec.setByteFails s) := by
  unfold Spec.setByteFails; cases s.dev.variant <;> infer_instance

instance (s : Sys) : Decidable (Spec.getByteSucceeds s) := by
  unfold Spec.getByteSucceeds; cases s.dev.variant <;> infer_instance

instance (s : Sys) : Decidable (Spec.getByteFails s) := by
  unfold Spec.getByteFails; infer_instance

instance (s : Sys) : Decidable (Spec.enableInputsSucceeds s) := by
  unfold Spec.enableInputsSucceeds; cases s.dev.variant <;> infer_instance

instance (s : Sys) : Decidable (Spec.enableInputsFails s) := by
  unfold Spec.enableInputsFails; cases s.dev.variant <;> infer_instance

instance (op : Op) (s : Sys) : Decidable (op.succeeds s) := by
  cases op <;> simp only [Op.succeeds] <;> infer_instance

instance (op : Op) (s : Sys) : Decidable (op.fails s) := by
  cases op <;> simp only [Op.fails] <;> infer_instance

instance allSucceedDecidable : (ops : List Op) → (s : Sys) → Decidable (allSucceed ops s)
  | [], _ => isTrue trivial
  | op :: ops, s =>
    have := allSucceedDecidable ops (op.run s)
    inferInstanceAs (Decidable (op.succeeds s ∧ allSucceed ops (op.run s)))

instance someFailsDecidable : (ops : List Op) → (s : Sys) → Decidable (someFails ops s)
  | [], _ => isFalse not_false
  | op :: ops, s =>
    have := someFailsDecidable ops (op.run s)
    inferInstanceAs (Decidable (op.fails s ∨ someFails ops (op.run s)))

/-- A quasi-bidirectional device initialised at 0x20 whose output was set to 0, on a
transport that reports 1 to every call. -/
def Example.counter8574 : Sys :=
  (I2CParallel.setByte 0
    (I2CParallel.init 0x20 400000
      { dev := I2CParallel8574.new, hw := World.fresh .avr (fun _ => 1) })).2

/-- A reset-capable device with the given reset pin, initialised at address 0x70 on an
AVR board. -/
def Example.sys9538 (resetPin : Nat) (l : List Nat) : Sys :=
  I2CParallel.init 0x70 400000
    { dev := I2CParallel9538.new resetPin, hw := World.fresh .avr (Example.scripted l) }

/-- A freshly constructed object of each class, on which `init` was never called. -/
def Example.fresh (v : Variant) (l : List Nat) : Sys :=
  { dev := match v with
      | .pcf8574 => I2CParallel8574.new
      | .pca9534 => I2CParallel9534.new
      | .pca9538 => I2CParallel9538.new INVALID_GPIO_PIN
    hw := World.fresh .avr (Example.scripted l) }

/-- The call belongs to a read transaction: a byte request or the fetch of a received byte. -/
def Call.isRead : Call → Bool
  | .requestFrom _ _ => true
  | .read => true
  | _ => false

/-! # Theorems -/

/-! ## Effect of `init` on the object -/

theorem init8574_addr (a b : Nat) (s : Sys) :
    (I2CParallel8574.init a b s).dev._i2cAddr = a &&& 0x7F := by
  simp only [I2CParallel8574.init, I2C_PARALLEL_ADDR_MASK]
  split_ifs <;> rfl

theorem init8574_error (a b : Nat) (s : Sys) :
    (I2CParallel8574.init a b s).dev._error =
      if b > 400000 then I2C_PARALLEL_ERR_BUS_SPEED
      else if Spec.validAddr8574 (a &&& 0x7F) then I2C_PARALLEL_ERR_OK
      else I2C_PARALLEL_ERR_ADDR := by
  simp only [I2CParallel8574.init, I2C_PARALLEL_ADDR_MASK, I2C_PARALLEL_MAX_BUS_SPEED,
    I2C_SPEED_FAST, I2C_PCF8574_MIN_ADDR, I2C_PCF8574_MAX_ADDR, I2C_PCF8574A_MIN_ADDR,
    I2C_PCF8574A_MAX_ADDR, Spec.validAddr8574]
  generalize a &&& 0x7F = m
  split_ifs <;> first | rfl | omega

theorem init9534_addr (a b : Nat) (s : Sys) :
    (I2CParallel9534.init a b s).dev._i2cAddr = a &&& 0x7F := by
  simp only [I2CParallel9534.init, I2C_PARALLEL_ADDR_MASK]
  split_ifs <;> rfl

theorem init9534_error (a b : Nat) (s : Sys) :
    (I2CParallel9534.init a b s).dev._error =
      if b > 400000 then I2C_PARALLEL_ERR_BUS_SPEED
      else if Spec.validAddr9534 (a &&& 0x7F) then I2C_PARALLEL_ERR_OK
      else I2C_PARALLEL_ERR_ADDR := by
  simp only [I2CParallel9534.init, I2C_PARALLEL_ADDR_MASK, I2C_PARALLEL_MAX_BUS_SPEED,
    I2C_SPEED_FAST, I2C_PCA9534_MIN_ADDR, I2C_PCA9534_MAX_ADDR, I2C_PCA9534A_MIN_ADDR,
    I2C_PCA9534A_MAX_ADDR, I2C_PCA9538_MIN_ADDR, I2C_PCA9538_MAX_ADDR, Spec.validAddr9534]
  generalize a &&& 0x7F = m
  split_ifs <;> first | rfl | omega

theorem init9538_dev (a b : Nat) (s : Sys) :
    (I2CParallel9538.init a b s).dev = (I2CParallel9534.init a b s).dev := by
  simp only [I2CParallel9538.init]
  split_ifs <;> rfl

theorem init_addr (a b : Nat) (s : Sys) :
    (I2CParallel.init a b s).dev._i2cAddr = a &&& 0x7F := by
  unfold I2CParallel.init
  split
  · exact init8574_addr a b s
  · exact init9534_addr a b s
  · rw [init9538_dev]; exact init9534_addr a b s

theorem init_error (a b : Nat) (s : Sys) :
    (I2CParallel.init a b s).dev._error =
      if b > 400000 then I2C_PARALLEL_ERR_BUS_SPEED
      else if Spec.validAddr s.dev.variant (a &&& 0x7F) then I2C_PARALLEL_ERR_OK
      else I2C_PARALLEL_ERR_ADDR := by
  unfold I2CParallel.init
  split <;> rename_i h <;> simp only [h, Spec.validAddr]
  · exact init8574_error a b s
  · exact init9534_error a b s
  · rw [init9538_dev]; exact init9534_error a b s

theorem getAddress_fst (s : Sys) : (I2CParallel.getAddress s).1 = s.dev._i2cAddr := by
  unfold I2CParallel.getAddress
  split_ifs <;> rfl

/-- C1 (amended): for every variant, every address `a` whose masked value `a & 0x7F`
lies outside the valid ranges of the family and every bus speed not above 400000, after
`init(a, busSpeed)` the error code is invalid-address and `getAddress()` returns `a & 0x7F`. -/
theorem C1_init_invalid_address (s : Sys) (a busSpeed : Nat)
    (hout : ¬ Spec.validAddr s.dev.variant (a &&& 0x7F)) (hspeed : busSpeed ≤ 400000) :
    (I2CParallel.init a busSpeed s).dev._error = I2C_PARALLEL_ERR_ADDR ∧
      (I2CParallel.getAddress (I2CParallel.init a busSpeed s)).1 = a &&& 0x7F := by
  refine ⟨?_, ?_⟩
  · rw [init_error, if_neg (by omega), if_neg hout]
  · rw [getAddress_fst, init_addr]

/-- C1, witness: the quasi-bidirectional device at `init(0x50, 400000)`. -/
theorem C1_witness :
    (¬ Spec.validAddr (Sys.mk I2CParallel8574.new (World.fresh .avr (fun _ => 1))).dev.variant
          (0x50 &&& 0x7F)) ∧ 400000 ≤ 400000 ∧
      (I2CParallel.init 0x50 400000
        (Sys.mk I2CParallel8574.new (World.fresh .avr (fun _ => 1)))).dev._error
          = I2C_PARALLEL_ERR_ADDR ∧
      (I2CParallel.getAddress (I2CParallel.init 0x50 400000
        (Sys.mk I2CParallel8574.new (World.fresh .avr (fun _ => 1))))).1 = 0x50 &&& 0x7F :=
  ⟨by decide, by decide,
    C1_init_invalid_address (Sys.mk I2CParallel8574.new (World.fresh .avr (fun _ => 1)))
      0x50 400000 (by decide) (by decide)⟩

/-- C1, counterexample: with address 0x50 (outside every valid range) and bus speed
500000, `init` leaves invalid-bus-speed, not invalid-address, in both families; and the
8-bit address 0xA0, itself outside the ranges 0x20..0x27 and 0x38..0x3F, is masked to 0x20
and leaves the error code OK. -/
theorem C1_counterexample :
    (¬ Spec.validAddr .pcf8574 0x50 ∧
      (I2CParallel.init 0x50 500000
        (Sys.mk I2CParallel8574.new (World.fresh .avr (fun _ => 1)))).dev._error
          = I2C_PARALLEL_ERR_BUS_SPEED) ∧
    (¬ Spec.validAddr .pca9534 0x50 ∧
      (I2CParallel.init 0x50 500000
        (Sys.mk I2CParallel9534.new (World.fresh .avr (fun _ => 1)))).dev._error
          = I2C_PARALLEL_ERR_BUS_SPEED) ∧
    (¬ Spec.validAddr .pcf8574 0xA0 ∧
      (I2CParallel.init 0xA0 400000
        (Sys.mk I2CParallel8574.new (World.fresh .avr (fun _ => 1)))).dev._error
          = I2C_PARALLEL_ERR_OK) := by
  decide

/-! ## Quasi-bidirectional `setByte` -/

theorem setByte8574_uninit (val : Nat) (s : Sys) (h : s.dev._i2cAddr = UNINITIALIZED_I2C_ADDR) :
    I2CParallel8574.setByte val s =
      (0, { s with dev := { s.dev with _error := I2C_PARALLEL_ERR_UNINITIALIZED,
                                       _outputState := val } }) := by
  simp [I2CParallel8574.setByte, h]

/-- Quasi-bidirectional `setByte` on an initialised device, as a function of the byte
count the transport reports for the write. -/
theorem setByte8574_init (val : Nat) (s : Sys) (h : s.dev._i2cAddr ≠ UNINITIALIZED_I2C_ADDR) :
    I2CParallel8574.setByte val s =
      (s.hw.upcoming 0 % s.hw.arch.sizeMod,
        { dev :=
            if s.hw.upcoming 0 % s.hw.arch.sizeMod = 1 then { s.dev with _outputState := val }
            else { s.dev with _error := I2C_PARALLEL_ERR_BUS_IO, _outputState := val }
          hw := { s.hw with
            consumed := s.hw.consumed + 1
            trace := s.hw.trace ++ [Call.beginTransmission s.dev._i2cAddr, Call.write val,
              Call.endTransmission SEND_STOP] } }) := by
  obtain ⟨d, w⟩ := s
  obtain ⟨arch, replies, consumed, trace⟩ := w
  simp only [I2CParallel8574.setByte, if_neg h, Wire.write, Wire.beginTransmission,
    Wire.endTransmission, World.log, World.reply, World.upcoming, Nat.add_zero]
  split_ifs <;> first | contradiction | simp_all [List.append_assoc]

/-! ## Register-addressed `setByte` -/

theorem setByte9534_uninit (val : Nat) (s : Sys) (h : s.dev._i2cAddr = UNINITIALIZED_I2C_ADDR) :
    I2CParallel9534.setByte val s =
      (0, { s with dev := { s.dev with _error := I2C_PARALLEL_ERR_UNINITIALIZED,
                                       _outputState := val } }) := by
  simp [I2CParallel9534.setByte, h]

/-- Register-addressed `setByte` on an initialised device, as a function of the byte
counts the transport reports for the two writes. -/
theorem setByte9534_init (val : Nat) (s : Sys) (h : s.dev._i2cAddr ≠ UNINITIALIZED_I2C_ADDR) :
    I2CParallel9534.setByte val s =
      if s.hw.upcoming 0 % s.hw.arch.sizeMod = 1 then
        if s.hw.upcoming 1 % s.hw.arch.sizeMod = 1 then
          (1, { dev := { s.dev with _outputState := val },
                hw := { s.hw with
                  consumed := s.hw.consumed + 2
                  trace := s.hw.trace ++ [Call.beginTransmission s.dev._i2cAddr,
                    Call.write REG_OUTPUT, Call.write val, Call.endTransmission SEND_STOP] } })
        else
          (0, { dev := { s.dev with _error := I2C_PARALLEL_ERR_BUS_IO, _outputState := val },
                hw := { s.hw with
                  consumed := s.hw.consumed + 2
                  trace := s.hw.trace ++ [Call.beginTransmission s.dev._i2cAddr,
                    Call.write REG_OUTPUT, Call.write val] } })
      else if s.hw.upcoming 0 % s.hw.arch.sizeMod = 2 then
        (1, { dev := { s.dev with _outputState := val },
              hw := { s.hw with
                consumed := s.hw.consumed + 1
                trace := s.hw.trace ++ [Call.beginTransmission s.dev._i2cAddr,
                  Call.write REG_OUTPUT, Call.endTransmission SEND_STOP] } })
      else
        (0, { dev := { s.dev with _error := I2C_PARALLEL_ERR_BUS_IO, _outputState := val },
              hw := { s.hw with
                consumed := s.hw.consumed + 1
                trace := s.hw.trace ++ [Call.beginTransmission s.dev._i2cAddr,
                  Call.write REG_OUTPUT] } }) := by
  obtain ⟨d, w⟩ := s
  obtain ⟨arch, replies, consumed, trace⟩ := w
  simp only [I2CParallel9534.setByte, if_neg h, Wire.write, Wire.beginTransmission,
    Wire.endTransmission, World.log, World.reply, World.upcoming, Nat.add_zero]
  cases arch <;> simp only [Arch.sizeMod] <;> split_ifs <;>
    first
      | contradiction
      | (simp only at *; omega)
      | simp [List.append_assoc]

/-- C2, the code at the failing input: on a register-addressed device initialised at 0x20
whose byte request reports 0 bytes, `getByte` returns after the request; the trace ends with
the request and holds no write of the OUTPUT register address. -/
theorem C2_getByte_failed_read_skips_workaround :
    (Example.sys9534 [1, 0]).dev._i2cAddr = 0x20 ∧
    (I2CParallel.getByte (Example.sys9534 [1, 0])).nBytesRead = 0 ∧
    (I2CParallel.getByte (Example.sys9534 [1, 0])).sys.hw.trace =
      Example.initTrace ++ [Call.beginTransmission 0x20, Call.write REG_INPUT,
        Call.endTransmission 0, Call.requestFrom 0x20 1] ∧
    Call.write REG_OUTPUT ∉ (I2CParallel.getByte (Example.sys9534 [1, 0])).sys.hw.trace := by
  decide

/-- C4, counterexample: when the register-address write reports 0 bytes, the trace of
`setByte(0xAA)` is the begin and the register-address write only, without the value write
and without the end of the transaction. -/
theorem C4_counterexample :
    (Example.sys9534 [0]).dev._i2cAddr = 0x20 ∧
    (I2CParallel.setByte 0xAA (Example.sys9534 [0])).2.hw.trace =
      (Example.sys9534 [0]).hw.trace ++
        [Call.beginTransmission 0x20, Call.write REG_OUTPUT] ∧
    (I2CParallel.setByte 0xAA (Example.sys9534 [0])).2.hw.trace ≠
      (Example.sys9534 [0]).hw.trace ++
        [Call.beginTransmission 0x20, Call.write REG_OUTPUT, Call.write 0xAA,
          Call.endTransmission SEND_STOP] := by
  decide

/-- C4 (amended): on an initialised register-addressed device whose register-address
write reports zero or one byte, the trace of `setByte(v)` is: begin the transaction to the
device address, write the OUTPUT register address 0x01, then write `v` only if the first
write reported exactly one byte, then end with a stop only if both writes reported exactly
one byte each. -/
theorem C4_setByte_trace (val : Nat) (s : Sys)
    (hinit : s.dev._i2cAddr ≠ UNINITIALIZED_I2C_ADDR)
    (hcount : s.hw.upcoming 0 % s.hw.arch.sizeMod ≤ 1) :
    (I2CParallel9534.setByte val s).2.hw.trace =
      s.hw.trace ++ [Call.beginTransmission s.dev._i2cAddr, Call.write REG_OUTPUT] ++
        (if s.hw.upcoming 0 % s.hw.arch.sizeMod = 1 then [Call.write val] else []) ++
        (if s.hw.upcoming 0 % s.hw.arch.sizeMod = 1 ∧ s.hw.upcoming 1 % s.hw.arch.sizeMod = 1
          then [Call.endTransmission SEND_STOP] else []) := by
  rw [setByte9534_init val s hinit]
  split_ifs <;> first | omega | simp_all

/-- C4, witness: both writes report one byte. -/
theorem C4_witness :
    (Example.sys9534 [1, 1]).dev._i2cAddr ≠ UNINITIALIZED_I2C_ADDR ∧
    (Example.sys9534 [1, 1]).hw.upcoming 0 % (Example.sys9534 [1, 1]).hw.arch.sizeMod ≤ 1 ∧
    (I2CParallel9534.setByte 0xAA (Example.sys9534 [1, 1])).2.hw.trace =
      (Example.sys9534 [1, 1]).hw.trace ++
        [Call.beginTransmission (Example.sys9534 [1, 1]).dev._i2cAddr, Call.write REG_OUTPUT] ++
        (if (Example.sys9534 [1, 1]).hw.upcoming 0 % (Example.sys9534 [1, 1]).hw.arch.sizeMod = 1
          then [Call.write 0xAA] else []) ++
        (if (Example.sys9534 [1, 1]).hw.upcoming 0 % (Example.sys9534 [1, 1]).hw.arch.sizeMod = 1 ∧
            (Example.sys9534 [1, 1]).hw.upcoming 1 % (Example.sys9534 [1, 1]).hw.arch.sizeMod = 1
          then [Call.endTransmission SEND_STOP] else []) :=
  ⟨by decide, by decide, C4_setByte_trace 0xAA (Example.sys9534 [1, 1]) (by decide) (by decide)⟩

theorem setByte8574_outputState (val : Nat) (s : Sys) :
    (I2CParallel8574.setByte val s).2.dev._outputState = val := by
  unfold I2CParallel8574.setByte
  split_ifs <;> rfl

theorem setByte9534_outputState (val : Nat) (s : Sys) :
    (I2CParallel9534.setByte val s).2.dev._outputState = val := by
  by_cases h : s.dev._i2cAddr = UNINITIALIZED_I2C_ADDR
  · rw [setByte9534_uninit val s h]
  · rw [setByte9534_init val s h]
    split_ifs <;> rfl

theorem setByte_outputState (val : Nat) (s : Sys) :
    (I2CParallel.setByte val s).2.dev._outputState = val := by
  unfold I2CParallel.setByte
  split
  · exact setByte8574_outputState val s
  · exact setByte9534_outputState val s
  · exact setByte9534_outputState val s

/-- C5: for every variant, every device state (initialised or not), every value `v` and
every transport behaviour, `getLastOutputState()` is `v` after `setByte(v)`. -/
theorem C5_setByte_latches_output (val : Nat) (s : Sys) :
    I2CParallel.getLastOutputState (I2CParallel.setByte val s).2 = val :=
  setByte_outputState val s

/-- C6: for every variant, every device state, every value and every byte count the
transport can report (a one-byte write reports zero or one byte), `setByte` returns either
0 or 1: it returns 1 and records no error when the write succeeds (the device is
initialised and every write reports one byte), and otherwise it returns 0 and records
uninitialized on an uninitialised device and bus-io-error on an initialised one. -/
theorem C6_setByte_returns_zero_or_one (val : Nat) (s : Sys)
    (hcount : s.hw.upcoming 0 % s.hw.arch.sizeMod ≤ 1) :
    ((I2CParallel.setByte val s).1 = 0 ∨ (I2CParallel.setByte val s).1 = 1) ∧
      (Spec.setByteSucceeds s →
        (I2CParallel.setByte val s).1 = 1 ∧
          (I2CParallel.setByte val s).2.dev._error = s.dev._error) ∧
      (¬ Spec.setByteSucceeds s →
        (I2CParallel.setByte val s).1 = 0 ∧
          (I2CParallel.setByte val s).2.dev._error =
            if s.dev._i2cAddr = UNINITIALIZED_I2C_ADDR then I2C_PARALLEL_ERR_UNINITIALIZED
            else I2C_PARALLEL_ERR_BUS_IO) := by
  by_cases ha : s.dev._i2cAddr = UNINITIALIZED_I2C_ADDR
  · have hns : ¬ Spec.setByteSucceeds s := fun h => h.1 ha
    unfold I2CParallel.setByte
    split
    · rw [setByte8574_uninit val s ha]
      exact ⟨Or.inl rfl, fun h => absurd h hns, fun _ => ⟨rfl, by rw [if_pos ha]⟩⟩
    · rw [setByte9534_uninit val s ha]
      exact ⟨Or.inl rfl, fun h => absurd h hns, fun _ => ⟨rfl, by rw [if_pos ha]⟩⟩
    · rw [setByte9534_uninit val s ha]
      exact ⟨Or.inl rfl, fun h => absurd h hns, fun _ => ⟨rfl, by rw [if_pos ha]⟩⟩
  · have h9 : ∀ hv : s.dev.variant = .pca9534 ∨ s.dev.variant = .pca9538,
        ((I2CParallel9534.setByte val s).1 = 0 ∨ (I2CParallel9534.setByte val s).1 = 1) ∧
        (Spec.setByteSucceeds s →
          (I2CParallel9534.setByte val s).1 = 1 ∧
            (I2CParallel9534.setByte val s).2.dev._error = s.dev._error) ∧
        (¬ Spec.setByteSucceeds s →
          (I2CParallel9534.setByte val s).1 = 0 ∧
            (I2CParallel9534.setByte val s).2.dev._error =
              if s.dev._i2cAddr = UNINITIALIZED_I2C_ADDR then I2C_PARALLEL_ERR_UNINITIALIZED
              else I2C_PARALLEL_ERR_BUS_IO) := by
      intro hv
      have hs : Spec.setByteSucceeds s ↔
          (s.hw.upcoming 0 % s.hw.arch.sizeMod = 1 ∧
            s.hw.upcoming 1 % s.hw.arch.sizeMod = 1) := by
        unfold Spec.setByteSucceeds Spec.writeCountIs
        rcases hv with hv | hv <;> rw [hv] <;> exact ⟨fun h => h.2, fun h => ⟨ha, h⟩⟩
      rw [hs, setByte9534_init val s ha, if_neg ha]
      split_ifs with h0 h1 h2
      · exact ⟨Or.inr rfl, fun _ => ⟨rfl, rfl⟩, fun h => absurd ⟨h0, h1⟩ h⟩
      · exact ⟨Or.inl rfl, fun h => absurd h.2 h1, fun _ => ⟨rfl, rfl⟩⟩
      · omega
      · exact ⟨Or.inl rfl, fun h => absurd h.1 h0, fun _ => ⟨rfl, rfl⟩⟩
    unfold I2CParallel.setByte
    split
    · rename_i hv
      have hs : Spec.setByteSucceeds s ↔ s.hw.upcoming 0 % s.hw.arch.sizeMod = 1 := by
        unfold Spec.setByteSucceeds Spec.writeCountIs
        rw [hv]
        exact ⟨fun h => h.2, fun h => ⟨ha, h⟩⟩
      rw [hs, setByte8574_init val s ha, if_neg ha]
      by_cases h0 : s.hw.upcoming 0 % s.hw.arch.sizeMod = 1
      · rw [if_pos h0]
        exact ⟨Or.inr h0, fun _ => ⟨h0, rfl⟩, fun h => absurd h0 h⟩
      · rw [if_neg h0]
        have hz : s.hw.upcoming 0 % s.hw.arch.sizeMod = 0 := by omega
        exact ⟨Or.inl hz, fun h => absurd h h0, fun _ => ⟨hz, rfl⟩⟩
    · rename_i hv
      exact h9 (Or.inl hv)
    · rename_i hv
      exact h9 (Or.inr hv)

/-- C6, witness: a quasi-bidirectional write that reports no byte returns 0 with
bus-io-error, and one that reports one byte returns 1. -/
theorem C6_witness :
    (Example.sys8574 [0]).hw.upcoming 0 % (Example.sys8574 [0]).hw.arch.sizeMod ≤ 1 ∧
    ¬ Spec.setByteSucceeds (Example.sys8574 [0]) ∧
    (I2CParallel.setByte 0x55 (Example.sys8574 [0])).1 = 0 ∧
    (I2CParallel.setByte 0x55 (Example.sys8574 [0])).2.dev._error = I2C_PARALLEL_ERR_BUS_IO ∧
    (I2CParallel.setByte 0x55 (Example.sys8574 [1])).1 = 1 :=
  ⟨by decide, by decide,
    ((C6_setByte_returns_zero_or_one 0x55 (Example.sys8574 [0]) (by decide)).2.2
      (by decide)).1,
    ((C6_setByte_returns_zero_or_one 0x55 (Example.sys8574 [0]) (by decide)).2.2
      (by decide)).2,
    ((C6_setByte_returns_zero_or_one 0x55 (Example.sys8574 [1]) (by decide)).2.1
      (by decide)).1⟩

/-! ## `getByte` -/

theorem getByte8574_uninit (s : Sys) (h : s.dev._i2cAddr = UNINITIALIZED_I2C_ADDR) :
    I2CParallel8574.getByte s =
      { value := s.dev._inputState, nBytesRead := 0,
        sys := { s with dev := { s.dev with _error := I2C_PARALLEL_ERR_UNINITIALIZED } } } := by
  simp [I2CParallel8574.getByte, h]

theorem getByte8574_init (s : Sys) (h : s.dev._i2cAddr ≠ UNINITIALIZED_I2C_ADDR) :
    I2CParallel8574.getByte s =
      if s.hw.upcoming 0 % 256 = 1 then
        { value := s.hw.upcoming 1 % 256, nBytesRead := 1,
          sys := { dev := { s.dev with _inputState := s.hw.upcoming 1 % 256 },
                   hw := { s.hw with
                     consumed := s.hw.consumed + 2
                     trace := s.hw.trace ++ [Call.requestFrom s.dev._i2cAddr 1, Call.read] } } }
      else
        { value := s.dev._inputState, nBytesRead := s.hw.upcoming 0 % 256,
          sys := { dev := { s.dev with _error := I2C_PARALLEL_ERR_BUS_IO },
                   hw := { s.hw with
                     consumed := s.hw.consumed + 1
                     trace := s.hw.trace ++ [Call.requestFrom s.dev._i2cAddr 1] } } } := by
  obtain ⟨d, w⟩ := s
  obtain ⟨arch, replies, consumed, trace⟩ := w
  simp only [I2CParallel8574.getByte, if_neg h, Wire.requestFrom, Wire.read, World.log,
    World.reply, World.upcoming, Nat.add_zero]
  split_ifs <;> first | contradiction | simp_all [List.append_assoc]

theorem getByte9534_uninit (s : Sys) (h : s.dev._i2cAddr = UNINITIALIZED_I2C_ADDR) :
    I2CParallel9534.getByte s =
      { value := s.dev._inputState, nBytesRead := 0,
        sys := { s with dev := { s.dev with _error := I2C_PARALLEL_ERR_UNINITIALIZED } } } := by
  simp [I2CParallel9534.getByte, h]

theorem getByte9534_init (s : Sys) (h : s.dev._i2cAddr ≠ UNINITIALIZED_I2C_ADDR) :
    I2CParallel9534.getByte s =
      if s.hw.upcoming 1 % 256 = 1 then
        { value := s.hw.upcoming 2 % 256, nBytesRead := 1,
          sys := { dev := { s.dev with _inputState := s.hw.upcoming 2 % 256 },
                   hw := { s.hw with
                     consumed := s.hw.consumed + 4
                     trace := s.hw.trace ++ [Call.beginTransmission s.dev._i2cAddr,
                       Call.write REG_INPUT, Call.endTransmission 0,
                       Call.requestFrom s.dev._i2cAddr 1, Call.read,
                       Call.beginTransmission s.dev._i2cAddr, Call.write REG_OUTPUT,
                       Call.endTransmission SEND_STOP] } } }
      else
        { value := s.dev._inputState, nBytesRead := s.hw.upcoming 1 % 256,
          sys := { dev := { s.dev with _error := I2C_PARALLEL_ERR_BUS_IO },
                   hw := { s.hw with
                     consumed := s.hw.consumed + 2
                     trace := s.hw.trace ++ [Call.beginTransmission s.dev._i2cAddr,
                       Call.write REG_INPUT, Call.endTransmission 0,
                       Call.requestFrom s.dev._i2cAddr 1] } } } := by
  obtain ⟨d, w⟩ := s
  obtain ⟨arch, replies, consumed, trace⟩ := w
  simp only [I2CParallel9534.getByte, if_neg h, Wire.requestFrom, Wire.read, Wire.write,
    Wire.beginTransmission, Wire.endTransmission, World.log, World.reply, World.upcoming,
    Nat.add_zero]
  split_ifs <;> first | contradiction | simp_all [List.append_assoc]

/-- On an initialised device the out-parameter is the count `requestCount` names. -/
theorem getByte_nBytesRead (s : Sys) (h : s.dev._i2cAddr ≠ UNINITIALIZED_I2C_ADDR) :
    (I2CParallel.getByte s).nBytesRead = requestCount s := by
  unfold I2CParallel.getByte requestCount
  split
  · rw [getByte8574_init s h]; split_ifs with hc <;> simp [hc]
  · rw [getByte9534_init s h]; split_ifs with hc <;> simp [hc]
  · rw [getByte9534_init s h]; split_ifs with hc <;> simp [hc]

/-- C7: for every variant and every prior state, a `getByte` that fails (the device is
uninitialised, or the byte request reports a count other than 1) leaves `inputState` as it
was, and returns that prior `inputState`. -/
theorem C7_failed_getByte_keeps_inputState (s : Sys)
    (hfail : s.dev._i2cAddr = UNINITIALIZED_I2C_ADDR ∨ requestCount s ≠ 1) :
    (I2CParallel.getByte s).sys.dev._inputState = s.dev._inputState ∧
      (I2CParallel.getByte s).value = s.dev._inputState := by
  by_cases h : s.dev._i2cAddr = UNINITIALIZED_I2C_ADDR
  · unfold I2CParallel.getByte
    split
    · rw [getByte8574_uninit s h]; exact ⟨rfl, rfl⟩
    · rw [getByte9534_uninit s h]; exact ⟨rfl, rfl⟩
    · rw [getByte9534_uninit s h]; exact ⟨rfl, rfl⟩
  · have hc : requestCount s ≠ 1 := hfail.resolve_left h
    unfold requestCount at hc
    unfold I2CParallel.getByte
    split <;> rename_i hv <;> simp only [hv] at hc
    · rw [getByte8574_init s h, if_neg hc]; exact ⟨rfl, rfl⟩
    · rw [getByte9534_init s h, if_neg hc]; exact ⟨rfl, rfl⟩
    · rw [getByte9534_init s h, if_neg hc]; exact ⟨rfl, rfl⟩

/-- C7, witness: a register-addressed device whose byte request reports 0 bytes. -/
theorem C7_witness :
    ((Example.sys9534 [1, 0]).dev._i2cAddr = UNINITIALIZED_I2C_ADDR ∨
        requestCount (Example.sys9534 [1, 0]) ≠ 1) ∧
      (I2CParallel.getByte (Example.sys9534 [1, 0])).sys.dev._inputState =
        (Example.sys9534 [1, 0]).dev._inputState ∧
      (I2CParallel.getByte (Example.sys9534 [1, 0])).value =
        (Example.sys9534 [1, 0]).dev._inputState :=
  ⟨by decide, C7_failed_getByte_keeps_inputState (Example.sys9534 [1, 0]) (by decide)⟩

/-- C8: for every variant and every initialised device, whenever `getByte` fails because
the byte request returns a count other than 1 (a request for one byte reports zero or one
byte), the out-parameter `bytesRead` is 0 and the error code is bus-io-error after the
call. -/
theorem C8_failed_getByte_reports_zero (s : Sys)
    (hinit : s.dev._i2cAddr ≠ UNINITIALIZED_I2C_ADDR)
    (hfail : requestCount s ≠ 1) (hcount : requestCount s ≤ 1) :
    (I2CParallel.getByte s).nBytesRead = 0 ∧
      (I2CParallel.getByte s).sys.dev._error = I2C_PARALLEL_ERR_BUS_IO := by
  have hz : requestCount s = 0 := by omega
  refine ⟨by rw [getByte_nBytesRead s hinit, hz], ?_⟩
  unfold requestCount at hfail
  unfold I2CParallel.getByte
  split <;> rename_i hv <;> simp only [hv] at hfail
  · rw [getByte8574_init s hinit, if_neg hfail]
  · rw [getByte9534_init s hinit, if_neg hfail]
  · rw [getByte9534_init s hinit, if_neg hfail]

/-- C8, witness: a register-addressed device whose byte request reports no byte. -/
theorem C8_witness :
    (Example.sys9534 [1, 0]).dev._i2cAddr ≠ UNINITIALIZED_I2C_ADDR ∧
    requestCount (Example.sys9534 [1, 0]) ≠ 1 ∧ requestCount (Example.sys9534 [1, 0]) ≤ 1 ∧
    (I2CParallel.getByte (Example.sys9534 [1, 0])).nBytesRead = 0 ∧
    (I2CParallel.getByte (Example.sys9534 [1, 0])).sys.dev._error = I2C_PARALLEL_ERR_BUS_IO :=
  ⟨by decide, by decide, by decide,
    C8_failed_getByte_reports_zero (Example.sys9534 [1, 0]) (by decide) (by decide) (by decide)⟩

/-! ## Bit operations -/

set_option maxRecDepth 100000 in
/-- Setting and then clearing bit `p` of a byte, as `setBit` and `clrBit` compute it. -/
theorem setBit_clrBit_byte :
    ∀ p, p < 8 → ∀ x, x < 256 →
      (((x ||| (1 <<< p) % 256) % 256) &&& I2CParallel.toUInt8 (-((1 <<< p : Nat) : Int) - 1)) % 256
        = if x &&& (1 <<< p) = 0 then x else x - 2 ^ p := by
  decide

theorem setBit_outputState (p : Nat) (s : Sys) (hp : p ≤ 7) :
    (I2CParallel.setBit p s).2.dev._outputState
      = (s.dev._outputState ||| (1 <<< p) % 256) % 256 := by
  have h : ¬ p > I2C_MAX_BIT_POS := by simp only [I2C_MAX_BIT_POS]; omega
  simp only [I2CParallel.setBit, if_neg h, I2CParallel.setOr, setByte_outputState]

theorem clrBit_outputState (p : Nat) (s : Sys) (hp : p ≤ 7) :
    (I2CParallel.clrBit p s).2.dev._outputState
      = (s.dev._outputState &&& I2CParallel.toUInt8 (-((1 <<< p : Nat) : Int) - 1)) % 256 := by
  have h : ¬ p > I2C_MAX_BIT_POS := by simp only [I2C_MAX_BIT_POS]; omega
  simp only [I2CParallel.clrBit, if_neg h, I2CParallel.setAnd, setByte_outputState]

/-- C9, counterexample: from output state 0xFF, `setBit(0)` then `clrBit(0)` leaves 0xFE. -/
theorem C9_counterexample :
    (Example.sys8574 [1, 1]).dev._outputState = 0xFF ∧
    (I2CParallel.clrBit 0 (I2CParallel.setBit 0 (Example.sys8574 [1, 1])).2).2.dev._outputState
      = 0xFE ∧
    (I2CParallel.clrBit 0 (I2CParallel.setBit 0 (Example.sys8574 [1, 1])).2).2.dev._outputState
      ≠ (Example.sys8574 [1, 1]).dev._outputState := by
  decide

/-- C9 (amended): for every variant, every 8-bit output state `s` and every bit position
`p` in 0..7, `setBit(p)` then `clrBit(p)` leaves `outputState` equal to `s` with bit `p`
cleared: `s` itself when bit `p` of `s` was clear before the `setBit` call, and `s - 2^p` when
it was set. -/
theorem C9_setBit_then_clrBit (p : Nat) (s : Sys) (hp : p ≤ 7)
    (hbyte : s.dev._outputState < 256) :
    (I2CParallel.clrBit p (I2CParallel.setBit p s).2).2.dev._outputState =
      if s.dev._outputState &&& (1 <<< p) = 0 then s.dev._outputState
      else s.dev._outputState - 2 ^ p := by
  rw [clrBit_outputState p _ hp, setBit_outputState p s hp]
  exact setBit_clrBit_byte p (by omega) _ hbyte

/-- C9, witness: bit 3 of a register-addressed device. -/
theorem C9_witness :
    (3 : Nat) ≤ 7 ∧ (Example.sys9534 [1, 1, 1, 1]).dev._outputState < 256 ∧
    (I2CParallel.clrBit 3
        (I2CParallel.setBit 3 (Example.sys9534 [1, 1, 1, 1])).2).2.dev._outputState =
      if (Example.sys9534 [1, 1, 1, 1]).dev._outputState &&& (1 <<< 3) = 0
      then (Example.sys9534 [1, 1, 1, 1]).dev._outputState
      else (Example.sys9534 [1, 1, 1, 1]).dev._outputState - 2 ^ 3 :=
  ⟨by decide, by decide,
    C9_setBit_then_clrBit 3 (Example.sys9534 [1, 1, 1, 1]) (by decide) (by decide)⟩

/-- C10: for every variant, every device state and every bit position `p` in 8..255,
`setBit(p)`, `clrBit(p)` and `toggleBit(p)` each return 0 and leave the whole state as it
was: no transport call, and `outputState`, `inputState`, address and error code unchanged. -/
theorem C10_out_of_range_bit_is_noop (p : Nat) (s : Sys) (hlo : 8 ≤ p) (hhi : p ≤ 255) :
    (I2CParallel.setBit p s = (0, s) ∧ I2CParallel.clrBit p s = (0, s) ∧
      I2CParallel.toggleBit p s = (0, s)) := by
  have h : p > I2C_MAX_BIT_POS := by simp only [I2C_MAX_BIT_POS]; omega
  simp only [I2CParallel.setBit, I2CParallel.clrBit, I2CParallel.toggleBit, if_pos h, and_self]

/-- C10, witness: bit position 8 on a quasi-bidirectional device. -/
theorem C10_witness :
    (8 : Nat) ≤ 8 ∧ (8 : Nat) ≤ 255 ∧
    (I2CParallel.setBit 8 (Example.sys8574 []) = (0, Example.sys8574 []) ∧
      I2CParallel.clrBit 8 (Example.sys8574 []) = (0, Example.sys8574 []) ∧
      I2CParallel.toggleBit 8 (Example.sys8574 []) = (0, Example.sys8574 [])) :=
  ⟨by decide, by decide, C10_out_of_range_bit_is_noop 8 (Example.sys8574 []) (by decide) (by decide)⟩

/-! ## `increment` -/

/-- A write on an initialised device whose transport accepts every write succeeds and
changes nothing but the output state. -/
theorem setByte_accepted (v : Nat) (s : Sys) (h : s.dev._i2cAddr ≠ UNINITIALIZED_I2C_ADDR)
    (hacc : s.hw.acceptsEveryWrite) :
    (I2CParallel.setByte v s).1 = 1 ∧
      (I2CParallel.setByte v s).2.dev = { s.dev with _outputState := v } ∧
      (I2CParallel.setByte v s).2.hw.acceptsEveryWrite := by
  have h0 := hacc 0
  have h1 := hacc 1
  unfold I2CParallel.setByte
  split
  · rw [setByte8574_init v s h, if_pos h0]
    refine ⟨h0, rfl, fun k => ?_⟩
    have := hacc (1 + k)
    simpa [World.upcoming, Nat.add_assoc] using this
  · rw [setByte9534_init v s h, if_pos h0, if_pos h1]
    refine ⟨rfl, rfl, fun k => ?_⟩
    have := hacc (2 + k)
    simpa [World.upcoming, Nat.add_assoc] using this
  · rw [setByte9534_init v s h, if_pos h0, if_pos h1]
    refine ⟨rfl, rfl, fun k => ?_⟩
    have := hacc (2 + k)
    simpa [World.upcoming, Nat.add_assoc] using this

theorem incrementTimes_succ (n : Nat) (s : Sys) :
    I2CParallel.incrementTimes (n + 1) s =
      (I2CParallel.increment (I2CParallel.incrementTimes n s)).2 := rfl

/-- The first 255 increments from 0 on an accepting transport count up without error. -/
theorem incrementTimes_below (s : Sys) (h : s.dev._i2cAddr ≠ UNINITIALIZED_I2C_ADDR)
    (hout : s.dev._outputState = 0)
    (hacc : s.hw.acceptsEveryWrite) :
    ∀ n, n ≤ 255 →
      (I2CParallel.incrementTimes n s).dev = { s.dev with _outputState := n } ∧
        (I2CParallel.incrementTimes n s).hw.acceptsEveryWrite := by
  intro n
  induction n with
  | zero =>
    intro _
    refine ⟨?_, hacc⟩
    simp only [I2CParallel.incrementTimes]
    rw [← hout]
  | succ n ih =>
    intro hn
    obtain ⟨hd, ha⟩ := ih (by omega)
    have hne : (I2CParallel.incrementTimes n s).dev._outputState ≠ I2C_PARALLEL_MAX_VAL := by
      rw [hd]; simp only [I2C_PARALLEL_MAX_VAL]; omega
    have haddr : (I2CParallel.incrementTimes n s).dev._i2cAddr ≠ UNINITIALIZED_I2C_ADDR := by
      rw [hd]; exact h
    obtain ⟨_, h2, h3⟩ := setByte_accepted
      (((I2CParallel.incrementTimes n s).dev._outputState + 1) % 256) _ haddr ha
    rw [incrementTimes_succ]
    simp only [I2CParallel.increment, if_neg hne]
    refine ⟨?_, h3⟩
    rw [h2, hd]
    have : (n + 1) % 256 = n + 1 := Nat.mod_eq_of_lt (by omega)
    simp [this]

/-- C11: on a device initialised with a valid address, with error code OK, output state 0
and a transport that accepts every write, for every `n` in 1..256 the output state after
the `n`-th consecutive `increment()` is `n mod 256`; the error code is OK after each of
the first 255 calls and arithmetic-carry after the 256th. -/
theorem C11_increment_counts_and_carries (s : Sys) (n : Nat)
    (haddr : Spec.validAddr s.dev.variant s.dev._i2cAddr)
    (herr : s.dev._error = I2C_PARALLEL_ERR_OK) (hout : s.dev._outputState = 0)
    (hacc : s.hw.acceptsEveryWrite) (hlo : 1 ≤ n) (hhi : n ≤ 256) :
    (I2CParallel.incrementTimes n s).dev._outputState = n % 256 ∧
      (n ≤ 255 → (I2CParallel.incrementTimes n s).dev._error = I2C_PARALLEL_ERR_OK) ∧
      (n = 256 → (I2CParallel.incrementTimes n s).dev._error = I2C_PARALLEL_ERR_CARRY) := by
  have h : s.dev._i2cAddr ≠ UNINITIALIZED_I2C_ADDR := by
    intro h0
    rw [h0] at haddr
    revert haddr
    cases s.dev.variant <;> decide
  obtain ⟨m, rfl⟩ : ∃ m, n = m + 1 := ⟨n - 1, by omega⟩
  by_cases hn : m + 1 ≤ 255
  · obtain ⟨hd, _⟩ := incrementTimes_below s h hout hacc (m + 1) hn
    rw [hd]
    refine ⟨?_, fun _ => herr, fun h256 => ?_⟩
    · show m + 1 = (m + 1) % 256
      omega
    · omega
  · have hm : m = 255 := by omega
    obtain ⟨hd, ha⟩ := incrementTimes_below s h hout hacc m (by omega)
    have hmax : (I2CParallel.incrementTimes m s).dev._outputState = I2C_PARALLEL_MAX_VAL := by
      rw [hd, hm]; rfl
    have haddr2 : (I2CParallel.incrementTimes m s).dev._i2cAddr ≠ UNINITIALIZED_I2C_ADDR := by
      rw [hd]; exact h
    obtain ⟨_, h2, _⟩ := setByte_accepted 0
      { I2CParallel.incrementTimes m s with
        dev := { (I2CParallel.incrementTimes m s).dev with
          _error := I2C_PARALLEL_ERR_CARRY } } haddr2 ha
    rw [incrementTimes_succ]
    simp only [I2CParallel.increment, if_pos hmax]
    rw [h2]
    refine ⟨?_, fun h => absurd h (by omega), fun _ => rfl⟩
    show 0 = (m + 1) % 256
    omega

/-- C11, witness: the 256th increment of a quasi-bidirectional counter. -/
theorem C11_witness :
    Spec.validAddr Example.counter8574.dev.variant Example.counter8574.dev._i2cAddr ∧
    Example.counter8574.dev._error = I2C_PARALLEL_ERR_OK ∧
    Example.counter8574.dev._outputState = 0 ∧
    Example.counter8574.hw.acceptsEveryWrite ∧
    (I2CParallel.incrementTimes 256 Example.counter8574).dev._outputState = 256 % 256 ∧
    ((256 : Nat) ≤ 255 →
      (I2CParallel.incrementTimes 256 Example.counter8574).dev._error = I2C_PARALLEL_ERR_OK) ∧
    ((256 : Nat) = 256 →
      (I2CParallel.incrementTimes 256 Example.counter8574).dev._error
        = I2C_PARALLEL_ERR_CARRY) :=
  ⟨by decide, by decide, by decide, fun _ => rfl,
    C11_increment_counts_and_carries Example.counter8574 256 (by decide) (by decide)
      (by decide) (fun _ => rfl) (by decide) (by decide)⟩

/-- What `setByte` returns against the error code it leaves: a return of 1 leaves the
error code alone, any other return records why the write did not happen. -/
theorem setByte_error (v : Nat) (s : Sys) :
    ((I2CParallel.setByte v s).1 = 1 → (I2CParallel.setByte v s).2.dev._error = s.dev._error) ∧
    ((I2CParallel.setByte v s).1 ≠ 1 → (I2CParallel.setByte v s).2.dev._error =
      if s.dev._i2cAddr = UNINITIALIZED_I2C_ADDR then I2C_PARALLEL_ERR_UNINITIALIZED
      else I2C_PARALLEL_ERR_BUS_IO) := by
  by_cases h : s.dev._i2cAddr = UNINITIALIZED_I2C_ADDR
  · unfold I2CParallel.setByte
    split
    · rw [setByte8574_uninit v s h]; simp [h]
    · rw [setByte9534_uninit v s h]; simp [h]
    · rw [setByte9534_uninit v s h]; simp [h]
  · unfold I2CParallel.setByte
    split
    · rw [setByte8574_init v s h]
      by_cases hc : s.hw.upcoming 0 % s.hw.arch.sizeMod = 1 <;> simp [h, hc]
    · rw [setByte9534_init v s h]
      split_ifs <;> simp [h]
    · rw [setByte9534_init v s h]
      split_ifs <;> simp [h]

/-- C12, counterexample: incrementing from 255 on an initialised device whose write
reports 0 bytes wraps the output to 0 but leaves bus-io-error, not arithmetic-carry; on an
uninitialised device it leaves uninitialized. -/
theorem C12_counterexample :
    ((Example.sys8574 [0]).dev._outputState = 255 ∧
      (I2CParallel.increment (Example.sys8574 [0])).2.dev._outputState = 0 ∧
      (I2CParallel.increment (Example.sys8574 [0])).2.dev._error = I2C_PARALLEL_ERR_BUS_IO ∧
      (I2CParallel.increment (Example.sys8574 [0])).2.dev._error ≠ I2C_PARALLEL_ERR_CARRY) ∧
    ((I2CParallel.increment
        { dev := I2CParallel9534.new, hw := World.fresh .avr (Example.scripted []) }).2.dev._error
      = I2C_PARALLEL_ERR_UNINITIALIZED) := by
  decide

/-- C12 (amended): for every variant and every transport behaviour, `increment()` called
with `outputState` 255 leaves `outputState` 0, and leaves the error code equal to
arithmetic-carry when the underlying write succeeds (returns 1); when the write does not
succeed the error code is the one the write records, uninitialized on an uninitialised
device and bus-io-error otherwise.  Called with `outputState` `s < 255` it leaves
`outputState` `s + 1`. -/
theorem C12_increment_wraps (s : Sys) :
    (s.dev._outputState = 255 →
      (I2CParallel.increment s).2.dev._outputState = 0 ∧
      ((I2CParallel.increment s).1 = 1 →
        (I2CParallel.increment s).2.dev._error = I2C_PARALLEL_ERR_CARRY) ∧
      ((I2CParallel.increment s).1 ≠ 1 →
        (I2CParallel.increment s).2.dev._error =
          if s.dev._i2cAddr = UNINITIALIZED_I2C_ADDR then I2C_PARALLEL_ERR_UNINITIALIZED
          else I2C_PARALLEL_ERR_BUS_IO)) ∧
    (s.dev._outputState < 255 →
      (I2CParallel.increment s).2.dev._outputState = s.dev._outputState + 1) := by
  refine ⟨fun h => ?_, fun h => ?_⟩
  · have hmax : s.dev._outputState = I2C_PARALLEL_MAX_VAL := h
    simp only [I2CParallel.increment, if_pos hmax]
    exact ⟨setByte_outputState 0 _, setByte_error 0 _⟩
  · have hne : s.dev._outputState ≠ I2C_PARALLEL_MAX_VAL := by
      simp only [I2C_PARALLEL_MAX_VAL]; omega
    simp only [I2CParallel.increment, if_neg hne, setByte_outputState]
    omega

/-- C12, witness: a carry whose write succeeds, and a step from 0xAA. -/
theorem C12_witness :
    (I2CParallel.increment (Example.sys8574 [1])).2.dev._outputState = 0 ∧
    (I2CParallel.increment (Example.sys8574 [1])).2.dev._error = I2C_PARALLEL_ERR_CARRY ∧
    (I2CParallel.increment (I2CParallel.setByte 0xAA (Example.sys8574 [1, 1])).2).2.dev._outputState
      = 0xAA + 1 :=
  ⟨((C12_increment_wraps (Example.sys8574 [1])).1 (by decide)).1,
    ((C12_increment_wraps (Example.sys8574 [1])).1 (by decide)).2.1 (by decide),
    (C12_increment_wraps (I2CParallel.setByte 0xAA (Example.sys8574 [1, 1])).2).2 (by decide)⟩

/-! ## Address and bus speed validation in `init` -/

/-- C15: for the quasi-bidirectional family, every address `a`, every bus speed not above
400000 and every prior state (so every prior error code), after `init(a, busSpeed)` the
error code is OK if and only if `a & 0x7F` lies in 0x20..0x27 or in 0x38..0x3F, and is
invalid-address otherwise. -/
theorem C15_init8574_address_ranges (s : Sys) (a busSpeed : Nat) (hspeed : busSpeed ≤ 400000) :
    ((I2CParallel8574.init a busSpeed s).dev._error = I2C_PARALLEL_ERR_OK ↔
        ((0x20 ≤ a &&& 0x7F ∧ a &&& 0x7F ≤ 0x27) ∨ (0x38 ≤ a &&& 0x7F ∧ a &&& 0x7F ≤ 0x3F))) ∧
      (¬ ((0x20 ≤ a &&& 0x7F ∧ a &&& 0x7F ≤ 0x27) ∨ (0x38 ≤ a &&& 0x7F ∧ a &&& 0x7F ≤ 0x3F)) →
        (I2CParallel8574.init a busSpeed s).dev._error = I2C_PARALLEL_ERR_ADDR) := by
  rw [init8574_error, if_neg (by omega)]
  simp only [Spec.validAddr8574]
  constructor
  · constructor
    · intro h
      by_contra hn
      rw [if_neg hn] at h
      exact absurd h (by decide)
    · intro h
      rw [if_pos h]
  · intro hn
    rw [if_neg hn]

/-- C15, witness: address 0x3F at 100 kHz. -/
theorem C15_witness :
    (100000 : Nat) ≤ 400000 ∧
    (((I2CParallel8574.init 0x3F 100000 (Example.fresh .pcf8574 [])).dev._error
        = I2C_PARALLEL_ERR_OK ↔
        ((0x20 ≤ 0x3F &&& 0x7F ∧ 0x3F &&& 0x7F ≤ 0x27) ∨
          (0x38 ≤ 0x3F &&& 0x7F ∧ 0x3F &&& 0x7F ≤ 0x3F))) ∧
      (¬ ((0x20 ≤ 0x3F &&& 0x7F ∧ 0x3F &&& 0x7F ≤ 0x27) ∨
          (0x38 ≤ 0x3F &&& 0x7F ∧ 0x3F &&& 0x7F ≤ 0x3F)) →
        (I2CParallel8574.init 0x3F 100000 (Example.fresh .pcf8574 [])).dev._error
          = I2C_PARALLEL_ERR_ADDR)) :=
  ⟨by decide, C15_init8574_address_ranges (Example.fresh .pcf8574 []) 0x3F 100000 (by decide)⟩

theorem init9534_error_iff (s : Sys) (a busSpeed : Nat) (hspeed : busSpeed ≤ 400000) :
    ((I2CParallel9534.init a busSpeed s).dev._error = I2C_PARALLEL_ERR_OK ↔
        Spec.validAddr9534 (a &&& 0x7F)) ∧
      (¬ Spec.validAddr9534 (a &&& 0x7F) →
        (I2CParallel9534.init a busSpeed s).dev._error = I2C_PARALLEL_ERR_ADDR) := by
  rw [init9534_error, if_neg (by omega)]
  constructor
  · constructor
    · intro h
      by_contra hn
      rw [if_neg hn] at h
      exact absurd h (by decide)
    · intro h
      rw [if_pos h]
  · intro hn
    rw [if_neg hn]

/-- C16: for the register-addressed class and for the reset-capable class, whose `init`
delegates to it, every address `a`, every bus speed not above 400000 and every prior state:
after `init(a, busSpeed)` the error code is OK if and only if `a & 0x7F` lies in
0x20..0x27, 0x38..0x3F or 0x70..0x73, and is invalid-address otherwise. -/
theorem C16_init9534_address_ranges (s : Sys) (a busSpeed : Nat) (hspeed : busSpeed ≤ 400000) :
    (((I2CParallel9534.init a busSpeed s).dev._error = I2C_PARALLEL_ERR_OK ↔
        ((0x20 ≤ a &&& 0x7F ∧ a &&& 0x7F ≤ 0x27) ∨ (0x38 ≤ a &&& 0x7F ∧ a &&& 0x7F ≤ 0x3F) ∨
          (0x70 ≤ a &&& 0x7F ∧ a &&& 0x7F ≤ 0x73))) ∧
      (¬ ((0x20 ≤ a &&& 0x7F ∧ a &&& 0x7F ≤ 0x27) ∨ (0x38 ≤ a &&& 0x7F ∧ a &&& 0x7F ≤ 0x3F) ∨
          (0x70 ≤ a &&& 0x7F ∧ a &&& 0x7F ≤ 0x73)) →
        (I2CParallel9534.init a busSpeed s).dev._error = I2C_PARALLEL_ERR_ADDR)) ∧
    (((I2CParallel9538.init a busSpeed s).dev._error = I2C_PARALLEL_ERR_OK ↔
        ((0x20 ≤ a &&& 0x7F ∧ a &&& 0x7F ≤ 0x27) ∨ (0x38 ≤ a &&& 0x7F ∧ a &&& 0x7F ≤ 0x3F) ∨
          (0x70 ≤ a &&& 0x7F ∧ a &&& 0x7F ≤ 0x73))) ∧
      (¬ ((0x20 ≤ a &&& 0x7F ∧ a &&& 0x7F ≤ 0x27) ∨ (0x38 ≤ a &&& 0x7F ∧ a &&& 0x7F ≤ 0x3F) ∨
          (0x70 ≤ a &&& 0x7F ∧ a &&& 0x7F ≤ 0x73)) →
        (I2CParallel9538.init a busSpeed s).dev._error = I2C_PARALLEL_ERR_ADDR)) := by
  rw [init9538_dev]
  exact ⟨init9534_error_iff s a busSpeed hspeed, init9534_error_iff s a busSpeed hspeed⟩

/-- C16, witness: the reset-capable class at address 0x73. -/
theorem C16_witness :
    (400000 : Nat) ≤ 400000 ∧
    (I2CParallel9538.init 0x73 400000 (Example.fresh .pca9538 [])).dev._error
      = I2C_PARALLEL_ERR_OK :=
  ⟨by decide,
    ((C16_init9534_address_ranges (Example.fresh .pca9538 []) 0x73 400000 (by decide)).2.1).2
      (by decide)⟩

/-- C17: for every variant, every address and every prior state, after
`init(address, busSpeed)` the error code is invalid-bus-speed if and only if `busSpeed` is
greater than 400000; and the error code after `init` does not depend on the error code
before it: it is one of OK, invalid-address and invalid-bus-speed, set by this call. -/
theorem C17_init_bus_speed (s : Sys) (a busSpeed : Nat) :
    ((I2CParallel.init a busSpeed s).dev._error = I2C_PARALLEL_ERR_BUS_SPEED ↔
        busSpeed > 400000) ∧
      (∀ e, (I2CParallel.init a busSpeed { s with dev := { s.dev with _error := e } }).dev._error
        = (I2CParallel.init a busSpeed s).dev._error) ∧
      ((I2CParallel.init a busSpeed s).dev._error = I2C_PARALLEL_ERR_OK ∨
        (I2CParallel.init a busSpeed s).dev._error = I2C_PARALLEL_ERR_ADDR ∨
        (I2CParallel.init a busSpeed s).dev._error = I2C_PARALLEL_ERR_BUS_SPEED) := by
  refine ⟨?_, ?_, ?_⟩
  · rw [init_error]
    constructor
    · intro h
      by_contra hn
      rw [if_neg hn] at h
      split_ifs at h <;> exact absurd h (by decide)
    · intro h
      rw [if_pos h]
  · intro e
    rw [init_error, init_error]
  · rw [init_error]
    split_ifs
    · exact Or.inr (Or.inr rfl)
    · exact Or.inl rfl
    · exact Or.inr (Or.inl rfl)

/-! ## Uninitialised and out-of-range devices -/

/-- C18, counterexample: the addresses 0x00 and 0x80 are outside both valid ranges, but
they are masked to 0, the unset sentinel: after `init`, `setByte(1)` refuses, returns 0,
records uninitialized and makes no transport call. -/
theorem C18_counterexample :
    (¬ Spec.validAddr8574 0x80 ∧ ¬ Spec.validAddr8574 (0x80 &&& 0x7F) ∧
      (I2CParallel8574.setByte 1
        (I2CParallel8574.init 0x80 400000 (Example.fresh .pcf8574 [1]))).1 = 0 ∧
      (I2CParallel8574.setByte 1
        (I2CParallel8574.init 0x80 400000 (Example.fresh .pcf8574 [1]))).2.dev._error
          = I2C_PARALLEL_ERR_UNINITIALIZED ∧
      (I2CParallel8574.setByte 1
        (I2CParallel8574.init 0x80 400000 (Example.fresh .pcf8574 [1]))).2.hw.trace
          = Example.initTrace) ∧
    (¬ Spec.validAddr8574 0x00 ∧
      (I2CParallel8574.setByte 1
        (I2CParallel8574.init 0x00 400000 (Example.fresh .pcf8574 [1]))).2.hw.trace
          = Example.initTrace) := by
  decide

/-- C18 (amended): for the quasi-bidirectional family and every address `a` whose masked
value `a & 0x7F` is outside the valid ranges and is not 0, after `init(a, busSpeed)` a call
`setByte(v)` does not refuse: it begins a write transaction addressed to `a & 0x7F`, writes
`v` and ends the transaction, and the error code it leaves is not uninitialized. -/
theorem C18_setByte_after_invalid_init (s : Sys) (a busSpeed v : Nat)
    (hout : ¬ Spec.validAddr8574 (a &&& 0x7F)) (hnz : a &&& 0x7F ≠ 0) :
    (I2CParallel8574.setByte v (I2CParallel8574.init a busSpeed s)).2.hw.trace =
        (I2CParallel8574.init a busSpeed s).hw.trace ++
          [Call.beginTransmission (a &&& 0x7F), Call.write v, Call.endTransmission SEND_STOP] ∧
      (I2CParallel8574.setByte v (I2CParallel8574.init a busSpeed s)).2.dev._error
        ≠ I2C_PARALLEL_ERR_UNINITIALIZED := by
  have haddr := init8574_addr a busSpeed s
  have hinit : (I2CParallel8574.init a busSpeed s).dev._i2cAddr ≠ UNINITIALIZED_I2C_ADDR := by
    rw [haddr]; exact hnz
  have herr := init8574_error a busSpeed s
  rw [if_neg hout] at herr
  rw [setByte8574_init v _ hinit, haddr]
  refine ⟨rfl, ?_⟩
  split_ifs at herr ⊢ <;> simp only [herr] <;> decide

/-- C18, witness: address 0x50. -/
theorem C18_witness :
    ¬ Spec.validAddr8574 (0x50 &&& 0x7F) ∧ 0x50 &&& 0x7F ≠ 0 ∧
    (I2CParallel8574.setByte 1
        (I2CParallel8574.init 0x50 400000 (Example.fresh .pcf8574 [1]))).2.hw.trace =
      (I2CParallel8574.init 0x50 400000 (Example.fresh .pcf8574 [1])).hw.trace ++
        [Call.beginTransmission (0x50 &&& 0x7F), Call.write 1, Call.endTransmission SEND_STOP] ∧
    (I2CParallel8574.setByte 1
        (I2CParallel8574.init 0x50 400000 (Example.fresh .pcf8574 [1]))).2.dev._error
      ≠ I2C_PARALLEL_ERR_UNINITIALIZED :=
  ⟨by decide, by decide,
    C18_setByte_after_invalid_init (Example.fresh .pcf8574 [1]) 0x50 400000 1
      (by decide) (by decide)⟩

theorem enableInputs9534_uninit (mask : Nat) (s : Sys)
    (h : s.dev._i2cAddr = UNINITIALIZED_I2C_ADDR) :
    I2CParallel9534.enableInputs mask s =
      { s with dev := { s.dev with _error := I2C_PARALLEL_ERR_UNINITIALIZED } } := by
  simp [I2CParallel9534.enableInputs, h]

theorem setInputPolarity_uninit (polarity : Nat) (s : Sys)
    (h : s.dev._i2cAddr = UNINITIALIZED_I2C_ADDR) :
    I2CParallel9534.setInputPolarity polarity s =
      { s with dev := { s.dev with _polarityState := polarity,
                                   _error := I2C_PARALLEL_ERR_UNINITIALIZED } } := by
  simp [I2CParallel9534.setInputPolarity, h]

/-- C19: for every variant, on a device whose address is the unset sentinel, `setByte`
and `getByte`, and for the register-addressed classes `enableInputs` and
`setInputPolarity`, make no transport call and set the error code to uninitialized;
`setByte` returns 0 and `getByte` reports `bytesRead = 0`. -/
theorem C19_uninitialised_operations_refuse (s : Sys) (v : Nat)
    (h : s.dev._i2cAddr = UNINITIALIZED_I2C_ADDR) :
    ((I2CParallel.setByte v s).1 = 0 ∧ (I2CParallel.setByte v s).2.hw = s.hw ∧
      (I2CParallel.setByte v s).2.dev._error = I2C_PARALLEL_ERR_UNINITIALIZED) ∧
    ((I2CParallel.getByte s).nBytesRead = 0 ∧ (I2CParallel.getByte s).sys.hw = s.hw ∧
      (I2CParallel.getByte s).sys.dev._error = I2C_PARALLEL_ERR_UNINITIALIZED) ∧
    ((I2CParallel9534.enableInputs v s).hw = s.hw ∧
      (I2CParallel9534.enableInputs v s).dev._error = I2C_PARALLEL_ERR_UNINITIALIZED) ∧
    ((I2CParallel9534.setInputPolarity v s).hw = s.hw ∧
      (I2CParallel9534.setInputPolarity v s).dev._error = I2C_PARALLEL_ERR_UNINITIALIZED) := by
  refine ⟨?_, ?_, ?_, ?_⟩
  · unfold I2CParallel.setByte
    split
    · rw [setByte8574_uninit v s h]; exact ⟨rfl, rfl, rfl⟩
    · rw [setByte9534_uninit v s h]; exact ⟨rfl, rfl, rfl⟩
    · rw [setByte9534_uninit v s h]; exact ⟨rfl, rfl, rfl⟩
  · unfold I2CParallel.getByte
    split
    · rw [getByte8574_uninit s h]; exact ⟨rfl, rfl, rfl⟩
    · rw [getByte9534_uninit s h]; exact ⟨rfl, rfl, rfl⟩
    · rw [getByte9534_uninit s h]; exact ⟨rfl, rfl, rfl⟩
  · rw [enableInputs9534_uninit v s h]; exact ⟨rfl, rfl⟩
  · rw [setInputPolarity_uninit v s h]; exact ⟨rfl, rfl⟩

/-- C19, witness: a freshly constructed register-addressed object. -/
theorem C19_witness :
    (Example.fresh .pca9534 [1, 1]).dev._i2cAddr = UNINITIALIZED_I2C_ADDR ∧
    (I2CParallel.setByte 7 (Example.fresh .pca9534 [1, 1])).1 = 0 ∧
    (I2CParallel.setByte 7 (Example.fresh .pca9534 [1, 1])).2.hw.trace = [] ∧
    (I2CParallel.getByte (Example.fresh .pca9534 [1, 1])).sys.dev._error
      = I2C_PARALLEL_ERR_UNINITIALIZED :=
  ⟨by decide,
    (C19_uninitialised_operations_refuse (Example.fresh .pca9534 [1, 1]) 7 (by decide)).1.1,
    by decide,
    (C19_uninitialised_operations_refuse (Example.fresh .pca9534 [1, 1]) 7 (by decide)).2.1.2.2⟩

/-! ## `reset` -/

/-- C20: for the reset-capable class, if the reset pin is the unconnected sentinel 255,
`reset()` sets the error code to invalid-pin and makes no GPIO or bus call; for every other
pin, `reset()` makes exactly the calls `digitalWrite(pin, LOW)`, `delayMicroseconds(1)`,
`digitalWrite(pin, HIGH)` in that order and leaves the error code and every other field of
the object unchanged. -/
theorem C20_reset (s : Sys) :
    (s.dev._resetPin = 255 →
      (I2CParallel9538.reset s).dev._error = I2C_PARALLEL_ERR_INVALID_PIN ∧
      (I2CParallel9538.reset s).hw = s.hw) ∧
    (s.dev._resetPin ≠ 255 →
      (I2CParallel9538.reset s).hw = { s.hw with trace := s.hw.trace ++
        [Call.digitalWrite s.dev._resetPin Level.LOW, Call.delayMicroseconds 1,
          Call.digitalWrite s.dev._resetPin Level.HIGH] } ∧
      (I2CParallel9538.reset s).dev = s.dev) := by
  refine ⟨fun h => ?_, fun h => ?_⟩
  · have hp : s.dev._resetPin = INVALID_GPIO_PIN := h
    simp only [I2CParallel9538.reset, if_pos hp, and_self]
  · have hp : ¬ s.dev._resetPin = INVALID_GPIO_PIN := h
    simp [I2CParallel9538.reset, hp, World.log]

/-- C20, witness: a device whose reset line is on pin 4, and one with no reset line. -/
theorem C20_witness :
    (I2CParallel9538.reset (Example.sys9538 4 [])).hw.trace =
      (Example.sys9538 4 []).hw.trace ++
        [Call.digitalWrite 4 Level.LOW, Call.delayMicroseconds 1,
          Call.digitalWrite 4 Level.HIGH] ∧
    (I2CParallel9538.reset (Example.sys9538 255 [])).dev._error
      = I2C_PARALLEL_ERR_INVALID_PIN :=
  ⟨congrArg World.trace ((C20_reset (Example.sys9538 4 [])).2 (by decide)).1,
    ((C20_reset (Example.sys9538 255 [])).1 (by decide)).1⟩

/-! ## The error code across operations -/

theorem busIO_ne_ok : I2C_PARALLEL_ERR_BUS_IO ≠ I2C_PARALLEL_ERR_OK := by decide

theorem uninit_ne_ok : I2C_PARALLEL_ERR_UNINITIALIZED ≠ I2C_PARALLEL_ERR_OK := by decide

theorem carry_ne_ok : I2C_PARALLEL_ERR_CARRY ≠ I2C_PARALLEL_ERR_OK := by decide

theorem invalidPin_ne_ok : I2C_PARALLEL_ERR_INVALID_PIN ≠ I2C_PARALLEL_ERR_OK := by decide

theorem setByte_error_cases (v : Nat) (s : Sys) :
    (I2CParallel.setByte v s).2.dev._error = s.dev._error ∨
      (I2CParallel.setByte v s).2.dev._error ≠ I2C_PARALLEL_ERR_OK := by
  by_cases hr : (I2CParallel.setByte v s).1 = 1
  · exact Or.inl ((setByte_error v s).1 hr)
  · right
    rw [(setByte_error v s).2 hr]
    split_ifs <;> decide

theorem setByte_uninit_error (v : Nat) (s : Sys)
    (h : s.dev._i2cAddr = UNINITIALIZED_I2C_ADDR) :
    (I2CParallel.setByte v s).2.dev._error = I2C_PARALLEL_ERR_UNINITIALIZED := by
  unfold I2CParallel.setByte
  split
  · rw [setByte8574_uninit v s h]
  · rw [setByte9534_uninit v s h]
  · rw [setByte9534_uninit v s h]

theorem getByte_uninit_error (s : Sys) (h : s.dev._i2cAddr = UNINITIALIZED_I2C_ADDR) :
    (I2CParallel.getByte s).sys.dev._error = I2C_PARALLEL_ERR_UNINITIALIZED := by
  unfold I2CParallel.getByte
  split
  · rw [getByte8574_uninit s h]
  · rw [getByte9534_uninit s h]
  · rw [getByte9534_uninit s h]

theorem setByte_succeeds_error (v : Nat) (s : Sys) (h : Spec.setByteSucceeds s) :
    (I2CParallel.setByte v s).2.dev._error = s.dev._error := by
  obtain ⟨ha, hm⟩ := h
  unfold I2CParallel.setByte
  split <;> rename_i hv <;> simp only [hv, Spec.writeCountIs] at hm
  · rw [setByte8574_init v s ha, if_pos hm]
  · rw [setByte9534_init v s ha, if_pos hm.1, if_pos hm.2]
  · rw [setByte9534_init v s ha, if_pos hm.1, if_pos hm.2]

theorem setByte_fails_error (v : Nat) (s : Sys) (h : Spec.setByteFails s) :
    (I2CParallel.setByte v s).2.dev._error ≠ I2C_PARALLEL_ERR_OK := by
  by_cases ha : s.dev._i2cAddr = UNINITIALIZED_I2C_ADDR
  · rw [setByte_uninit_error v s ha]
    decide
  · have hm := h.resolve_left ha
    unfold I2CParallel.setByte
    split <;> rename_i hv <;> simp only [hv, Spec.writeCountIs] at hm
    · rw [setByte8574_init v s ha, if_neg (by omega)]
      exact busIO_ne_ok
    · rw [setByte9534_init v s ha]
      rcases hm with h0 | ⟨h0, h1⟩
      · rw [if_neg (by omega), if_neg (by omega)]; exact busIO_ne_ok
      · rw [if_pos h0, if_neg (by omega)]; exact busIO_ne_ok
    · rw [setByte9534_init v s ha]
      rcases hm with h0 | ⟨h0, h1⟩
      · rw [if_neg (by omega), if_neg (by omega)]; exact busIO_ne_ok
      · rw [if_pos h0, if_neg (by omega)]; exact busIO_ne_ok

theorem getByte_error_cases (s : Sys) :
    (I2CParallel.getByte s).sys.dev._error = s.dev._error ∨
      (I2CParallel.getByte s).sys.dev._error ≠ I2C_PARALLEL_ERR_OK := by
  by_cases ha : s.dev._i2cAddr = UNINITIALIZED_I2C_ADDR
  · right
    rw [(getByte_uninit_error s ha)]
    exact uninit_ne_ok
  · unfold I2CParallel.getByte
    split
    · rw [getByte8574_init s ha]
      split_ifs
      · exact Or.inl rfl
      · exact Or.inr busIO_ne_ok
    · rw [getByte9534_init s ha]
      split_ifs
      · exact Or.inl rfl
      · exact Or.inr busIO_ne_ok
    · rw [getByte9534_init s ha]
      split_ifs
      · exact Or.inl rfl
      · exact Or.inr busIO_ne_ok

theorem getByte_succeeds_error (s : Sys) (h : Spec.getByteSucceeds s) :
    (I2CParallel.getByte s).sys.dev._error = s.dev._error := by
  obtain ⟨ha, hc, _⟩ := h
  unfold requestCount at hc
  unfold I2CParallel.getByte
  split <;> rename_i hv <;> simp only [hv] at hc
  · rw [getByte8574_init s ha, if_pos hc]
  · rw [getByte9534_init s ha, if_pos hc]
  · rw [getByte9534_init s ha, if_pos hc]

theorem getByte_fails_error (s : Sys) (h : Spec.getByteFails s) :
    (I2CParallel.getByte s).sys.dev._error ≠ I2C_PARALLEL_ERR_OK := by
  by_cases ha : s.dev._i2cAddr = UNINITIALIZED_I2C_ADDR
  · rw [(getByte_uninit_error s ha)]
    exact uninit_ne_ok
  · have hc := h.resolve_left ha
    unfold requestCount at hc
    unfold I2CParallel.getByte
    split <;> rename_i hv <;> simp only [hv] at hc
    · rw [getByte8574_init s ha, if_neg (by omega)]; exact busIO_ne_ok
    · rw [getByte9534_init s ha, if_neg (by omega)]; exact busIO_ne_ok
    · rw [getByte9534_init s ha, if_neg (by omega)]; exact busIO_ne_ok

theorem enableInputs9534_init (mask : Nat) (s : Sys)
    (h : s.dev._i2cAddr ≠ UNINITIALIZED_I2C_ADDR) :
    (I2CParallel9534.enableInputs mask s).dev = s.dev := by
  simp [I2CParallel9534.enableInputs, h]

theorem setInputPolarity_init (polarity : Nat) (s : Sys)
    (h : s.dev._i2cAddr ≠ UNINITIALIZED_I2C_ADDR) :
    (I2CParallel9534.setInputPolarity polarity s).dev =
      { s.dev with _polarityState := polarity } := by
  simp [I2CParallel9534.setInputPolarity, h]

theorem enableInputs_error_cases (mask : Nat) (s : Sys) :
    (I2CParallel.enableInputs mask s).dev._error = s.dev._error ∨
      (I2CParallel.enableInputs mask s).dev._error ≠ I2C_PARALLEL_ERR_OK := by
  have h9 : (I2CParallel9534.enableInputs mask s).dev._error = s.dev._error ∨
      (I2CParallel9534.enableInputs mask s).dev._error ≠ I2C_PARALLEL_ERR_OK := by
    by_cases ha : s.dev._i2cAddr = UNINITIALIZED_I2C_ADDR
    · rw [enableInputs9534_uninit mask s ha]; exact Or.inr uninit_ne_ok
    · rw [enableInputs9534_init mask s ha]; exact Or.inl rfl
  unfold I2CParallel.enableInputs
  split
  · exact setByte_error_cases _ s
  · exact h9
  · exact h9

theorem setInputPolarity_error_cases (polarity : Nat) (s : Sys) :
    (I2CParallel9534.setInputPolarity polarity s).dev._error = s.dev._error ∨
      (I2CParallel9534.setInputPolarity polarity s).dev._error ≠ I2C_PARALLEL_ERR_OK := by
  by_cases ha : s.dev._i2cAddr = UNINITIALIZED_I2C_ADDR
  · rw [setInputPolarity_uninit polarity s ha]; exact Or.inr uninit_ne_ok
  · rw [setInputPolarity_init polarity s ha]; exact Or.inl rfl

/-- A call on the object either leaves the error code as it was or leaves an error. -/
theorem Op.run_error_cases (op : Op) (s : Sys) :
    (op.run s).dev._error = s.dev._error ∨ (op.run s).dev._error ≠ I2C_PARALLEL_ERR_OK := by
  cases op with
  | setByte v => exact setByte_error_cases v s
  | getByte => exact getByte_error_cases s
  | setOr v => exact setByte_error_cases _ s
  | setAnd v => exact setByte_error_cases _ s
  | setXor v => exact setByte_error_cases _ s
  | setBit p =>
    simp only [Op.run, I2CParallel.setBit]
    split_ifs
    · exact Or.inl rfl
    · exact setByte_error_cases _ s
  | clrBit p =>
    simp only [Op.run, I2CParallel.clrBit]
    split_ifs
    · exact Or.inl rfl
    · exact setByte_error_cases _ s
  | toggleBit p =>
    simp only [Op.run, I2CParallel.toggleBit, I2CParallel.setBit, I2CParallel.clrBit]
    split_ifs
    · exact Or.inl rfl
    · exact setByte_error_cases _ s
    · exact setByte_error_cases _ s
  | increment =>
    simp only [Op.run, I2CParallel.increment]
    split_ifs
    · right
      rcases setByte_error_cases 0
        { s with dev := { s.dev with _error := I2C_PARALLEL_ERR_CARRY } } with h | h
      · rw [h]; exact carry_ne_ok
      · exact h
    · exact setByte_error_cases _ s
  | enableInputs m => exact enableInputs_error_cases m s
  | setInputPolarity p => exact setInputPolarity_error_cases p s
  | reset =>
    simp only [Op.run, I2CParallel9538.reset]
    split_ifs
    · exact Or.inr invalidPin_ne_ok
    · exact Or.inl rfl
  | getAddress =>
    simp only [Op.run, I2CParallel.getAddress]
    split_ifs
    · exact Or.inr uninit_ne_ok
    · exact Or.inl rfl

/-- The error code is sticky across one operation. -/
theorem Op.run_sticky (op : Op) (s : Sys) (h : s.dev._error ≠ I2C_PARALLEL_ERR_OK) :
    (op.run s).dev._error ≠ I2C_PARALLEL_ERR_OK := by
  rcases Op.run_error_cases op s with h1 | h1
  · rw [h1]; exact h
  · exact h1

/-- The error code is sticky across a sequence of operations. -/
theorem runOps_sticky (ops : List Op) :
    ∀ s : Sys, s.dev._error ≠ I2C_PARALLEL_ERR_OK →
      (runOps ops s).dev._error ≠ I2C_PARALLEL_ERR_OK := by
  induction ops with
  | nil => intro s h; exact h
  | cons op ops ih => intro s h; exact ih (op.run s) (Op.run_sticky op s h)

/-- An operation that meets no failure leaves the error code as it was. -/
theorem Op.succeeds_error (op : Op) (s : Sys) (h : op.succeeds s) :
    (op.run s).dev._error = s.dev._error := by
  have hbit : ∀ p : Nat, p > 7 ∨ Spec.setByteSucceeds s → ¬ p > I2C_MAX_BIT_POS →
      Spec.setByteSucceeds s := by
    intro p hp hn
    rcases hp with hp | hp
    · exact absurd hp hn
    · exact hp
  cases op with
  | setByte v => exact setByte_succeeds_error v s h
  | getByte => exact getByte_succeeds_error s h
  | setOr v => exact setByte_succeeds_error _ s h
  | setAnd v => exact setByte_succeeds_error _ s h
  | setXor v => exact setByte_succeeds_error _ s h
  | setBit p =>
    simp only [Op.run, I2CParallel.setBit]
    split_ifs with hp
    · rfl
    · exact setByte_succeeds_error _ s (hbit p h hp)
  | clrBit p =>
    simp only [Op.run, I2CParallel.clrBit]
    split_ifs with hp
    · rfl
    · exact setByte_succeeds_error _ s (hbit p h hp)
  | toggleBit p =>
    simp only [Op.run, I2CParallel.toggleBit, I2CParallel.setBit, I2CParallel.clrBit]
    split_ifs with hp
    · rfl
    · exact setByte_succeeds_error _ s (hbit p h hp)
    · exact setByte_succeeds_error _ s (hbit p h hp)
  | increment =>
    obtain ⟨hne, hs⟩ := h
    have hne2 : s.dev._outputState ≠ I2C_PARALLEL_MAX_VAL := hne
    simp only [Op.run, I2CParallel.increment, if_neg hne2]
    exact setByte_succeeds_error _ s hs
  | enableInputs m =>
    cases hv : s.dev.variant <;>
      simp only [Op.succeeds, Spec.enableInputsSucceeds, hv] at h <;>
      simp only [Op.run, I2CParallel.enableInputs, hv]
    · exact setByte_succeeds_error _ s h
    · rw [enableInputs9534_init m s h.1]
    · rw [enableInputs9534_init m s h.1]
  | setInputPolarity p =>
    simp only [Op.run]
    rw [setInputPolarity_init p s h.1]
  | reset =>
    have hp : ¬ s.dev._resetPin = INVALID_GPIO_PIN := h
    simp only [Op.run, I2CParallel9538.reset, if_neg hp]
  | getAddress =>
    have ha : ¬ s.dev._i2cAddr = UNINITIALIZED_I2C_ADDR := h
    simp only [Op.run, I2CParallel.getAddress, if_neg ha]

/-- An operation that fails in a way the driver looks for leaves an error. -/
theorem Op.fails_error (op : Op) (s : Sys) (h : op.fails s) :
    (op.run s).dev._error ≠ I2C_PARALLEL_ERR_OK := by
  have hbit : ∀ p : Nat, p ≤ 7 → ¬ p > I2C_MAX_BIT_POS := by
    intro p hp
    simp only [I2C_MAX_BIT_POS]
    omega
  cases op with
  | setByte v => exact setByte_fails_error v s h
  | getByte => exact getByte_fails_error s h
  | setOr v => exact setByte_fails_error _ s h
  | setAnd v => exact setByte_fails_error _ s h
  | setXor v => exact setByte_fails_error _ s h
  | setBit p =>
    simp only [Op.run, I2CParallel.setBit, if_neg (hbit p h.1)]
    exact setByte_fails_error _ s h.2
  | clrBit p =>
    simp only [Op.run, I2CParallel.clrBit, if_neg (hbit p h.1)]
    exact setByte_fails_error _ s h.2
  | toggleBit p =>
    simp only [Op.run, I2CParallel.toggleBit, I2CParallel.setBit, I2CParallel.clrBit,
      if_neg (hbit p h.1)]
    split_ifs
    · exact setByte_fails_error _ s h.2
    · exact setByte_fails_error _ s h.2
  | increment =>
    simp only [Op.run, I2CParallel.increment]
    split_ifs with hmax
    · rcases setByte_error_cases 0
        { s with dev := { s.dev with _error := I2C_PARALLEL_ERR_CARRY } } with h1 | h1
      · rw [h1]; exact carry_ne_ok
      · exact h1
    · rcases h with h | h
      · exact absurd h hmax
      · exact setByte_fails_error _ s h
  | enableInputs m =>
    cases hv : s.dev.variant <;>
      simp only [Op.fails, Spec.enableInputsFails, hv] at h <;>
      simp only [Op.run, I2CParallel.enableInputs, hv]
    · exact setByte_fails_error _ s h
    · rw [enableInputs9534_uninit m s h]; exact uninit_ne_ok
    · rw [enableInputs9534_uninit m s h]; exact uninit_ne_ok
  | setInputPolarity p =>
    simp only [Op.run]
    rw [setInputPolarity_uninit p s h]
    exact uninit_ne_ok
  | reset =>
    have hp : s.dev._resetPin = INVALID_GPIO_PIN := h
    simp only [Op.run, I2CParallel9538.reset, if_pos hp]
    exact invalidPin_ne_ok
  | getAddress =>
    have ha : s.dev._i2cAddr = UNINITIALIZED_I2C_ADDR := h
    simp only [Op.run, I2CParallel.getAddress, if_pos ha]
    exact uninit_ne_ok

theorem runOps_allSucceed (ops : List Op) :
    ∀ s : Sys, allSucceed ops s → (runOps ops s).dev._error = s.dev._error := by
  induction ops with
  | nil => intro s _; rfl
  | cons op ops ih =>
    intro s h
    show (runOps ops (op.run s)).dev._error = s.dev._error
    rw [ih (op.run s) h.2, Op.succeeds_error op s h.1]

theorem runOps_someFails (ops : List Op) :
    ∀ s : Sys, someFails ops s → (runOps ops s).dev._error ≠ I2C_PARALLEL_ERR_OK := by
  induction ops with
  | nil => intro s h; exact absurd h (by simp [someFails])
  | cons op ops ih =>
    intro s h
    show (runOps ops (op.run s)).dev._error ≠ I2C_PARALLEL_ERR_OK
    rcases h with h | h
    · exact runOps_sticky ops (op.run s) (Op.fails_error op s h)
    · exact ih (op.run s) h

/-- C13, counterexample: after `init(0x50, 400000)` a `setByte` that meets no failure
leaves the error code invalid-address, not OK; and on a register-addressed device with
error code OK, `enableInputs(0x0F)` whose two writes both report no byte leaves the error
code OK. -/
theorem C13_counterexample :
    (allSucceed [Op.setByte 1]
        (I2CParallel.init 0x50 400000 (Example.fresh .pca9534 [1, 1])) ∧
      (runOps [Op.setByte 1]
        (I2CParallel.init 0x50 400000 (Example.fresh .pca9534 [1, 1]))).dev._error
          = I2C_PARALLEL_ERR_ADDR) ∧
    ((Example.sys9534 [0, 0]).dev._error = I2C_PARALLEL_ERR_OK ∧
      Spec.writeCountIs (Example.sys9534 [0, 0]) 0 0 ∧
      Spec.writeCountIs (Example.sys9534 [0, 0]) 1 0 ∧
      (runOps [Op.enableInputs 0x0F] (Example.sys9534 [0, 0])).hw.trace =
        Example.initTrace ++ [Call.beginTransmission 0x20, Call.write REG_CONFIG,
          Call.write 0x0F, Call.endTransmission 0] ∧
      (runOps [Op.enableInputs 0x0F] (Example.sys9534 [0, 0])).dev._error
        = I2C_PARALLEL_ERR_OK) := by
  decide

/-- C13 (amended): for every variant and every sequence of operations performed on a
device whose error code is OK (as `clearError()` leaves it, and as `init()` leaves it when
address and bus speed are valid): if no operation of the sequence meets a failure, the
error code is still OK; and if some operation finds the device uninitialised, gets no byte
for a write of `setByte` or for the byte request of `getByte`, carries in `increment()`, or
finds the pin unconnected in `reset()`, the error code is not OK afterwards. -/
theorem C13_error_code_tracks_failures (ops : List Op) (s : Sys)
    (h0 : s.dev._error = I2C_PARALLEL_ERR_OK) :
    (allSucceed ops s → (runOps ops s).dev._error = I2C_PARALLEL_ERR_OK) ∧
      (someFails ops s → (runOps ops s).dev._error ≠ I2C_PARALLEL_ERR_OK) :=
  ⟨fun h => by rw [runOps_allSucceed ops s h, h0], runOps_someFails ops s⟩

/-- C13, witness: a write, a read and an increment that all succeed, and the same
sequence with a failed byte request. -/
theorem C13_witness :
    (Example.sys9534 [1, 1, 1, 1, 7, 1, 1, 1]).dev._error = I2C_PARALLEL_ERR_OK ∧
    allSucceed [Op.setByte 0xAA, Op.getByte, Op.increment]
      (Example.sys9534 [1, 1, 1, 1, 7, 1, 1, 1]) ∧
    (runOps [Op.setByte 0xAA, Op.getByte, Op.increment]
      (Example.sys9534 [1, 1, 1, 1, 7, 1, 1, 1])).dev._error = I2C_PARALLEL_ERR_OK ∧
    someFails [Op.setByte 0xAA, Op.getByte, Op.increment]
      (Example.sys9534 [1, 1, 1, 0]) ∧
    (runOps [Op.setByte 0xAA, Op.getByte, Op.increment]
      (Example.sys9534 [1, 1, 1, 0])).dev._error ≠ I2C_PARALLEL_ERR_OK :=
  ⟨by decide, by decide,
    (C13_error_code_tracks_failures [Op.setByte 0xAA, Op.getByte, Op.increment]
      (Example.sys9534 [1, 1, 1, 1, 7, 1, 1, 1]) (by decide)).1 (by decide),
    by decide,
    (C13_error_code_tracks_failures [Op.setByte 0xAA, Op.getByte, Op.increment]
      (Example.sys9534 [1, 1, 1, 0]) (by decide)).2 (by decide)⟩

/-- C14: the error code is sticky.  For every variant, every operation other than `init`
and `clearError` and every transport behaviour, if `hasError()` is true before the
operation it is true afterwards; and `clearError()` leaves the error code OK and changes no
other field of the object and nothing in the world. -/
theorem C14_error_code_is_sticky (op : Op) (s : Sys) :
    (I2CParallel.hasError s = true → I2CParallel.hasError (op.run s) = true) ∧
      (I2CParallel.getError (I2CParallel.clearError s) = I2C_PARALLEL_ERR_OK ∧
        (I2CParallel.clearError s).hw = s.hw ∧
        (I2CParallel.clearError s).dev.variant = s.dev.variant ∧
        (I2CParallel.clearError s).dev._outputState = s.dev._outputState ∧
        (I2CParallel.clearError s).dev._inputState = s.dev._inputState ∧
        (I2CParallel.clearError s).dev._i2cAddr = s.dev._i2cAddr ∧
        (I2CParallel.clearError s).dev._polarityState = s.dev._polarityState ∧
        (I2CParallel.clearError s).dev._resetPin = s.dev._resetPin) := by
  refine ⟨fun h => ?_, rfl, rfl, rfl, rfl, rfl, rfl, rfl, rfl⟩
  have hne : s.dev._error ≠ I2C_PARALLEL_ERR_OK := by
    simpa [I2CParallel.hasError] using h
  simpa [I2CParallel.hasError] using Op.run_sticky op s hne

/-- C14, witness: a successful write after a failed one keeps the error. -/
theorem C14_witness :
    I2CParallel.hasError ((Op.setByte 1).run (Example.sys8574 [0, 1])) = true ∧
    I2CParallel.hasError
      ((Op.setByte 2).run ((Op.setByte 1).run (Example.sys8574 [0, 1]))) = true :=
  ⟨by decide,
    (C14_error_code_is_sticky (Op.setByte 2) ((Op.setByte 1).run (Example.sys8574 [0, 1]))).1
      (by decide)⟩

/-! ## `toggleBit` against `setXor` -/

set_option maxRecDepth 100000 in
/-- The byte `toggleBit` writes, on either branch, is the byte `setXor` writes. -/
theorem toggle_xor_byte :
    ∀ p, p < 8 → ∀ x, x < 256 →
      (x &&& (1 <<< p) % 256 ≠ 0 →
        (x &&& I2CParallel.toUInt8 (-((1 <<< p : Nat) : Int) - 1)) % 256
          = (x ^^^ (1 <<< p)) % 256) ∧
      (x &&& (1 <<< p) % 256 = 0 →
        (x ||| (1 <<< p) % 256) % 256 = (x ^^^ (1 <<< p)) % 256) ∧
      (x ^^^ (1 <<< p)) % 256 = x ^^^ (1 <<< p) := by
  decide

/-- The calls `setByte` makes are all write-side calls. -/
theorem setByte_trace_no_read (v : Nat) (s : Sys) :
    ∃ l, (I2CParallel.setByte v s).2.hw.trace = s.hw.trace ++ l ∧
      ∀ c ∈ l, c.isRead = false := by
  by_cases h : s.dev._i2cAddr = UNINITIALIZED_I2C_ADDR
  · refine ⟨[], ?_, by simp⟩
    unfold I2CParallel.setByte
    split
    · rw [setByte8574_uninit v s h]; simp
    · rw [setByte9534_uninit v s h]; simp
    · rw [setByte9534_uninit v s h]; simp
  · unfold I2CParallel.setByte
    split
    · rw [setByte8574_init v s h]
      exact ⟨_, rfl, by simp [Call.isRead]⟩
    · rw [setByte9534_init v s h]
      split_ifs <;> exact ⟨_, rfl, by simp [Call.isRead]⟩
    · rw [setByte9534_init v s h]
      split_ifs <;> exact ⟨_, rfl, by simp [Call.isRead]⟩

theorem toggleBit_eq_setXor (p : Nat) (s : Sys) (hp : p ≤ 7)
    (hbyte : s.dev._outputState < 256) :
    I2CParallel.toggleBit p s = I2CParallel.setXor (1 <<< p) s := by
  have hn : ¬ p > I2C_MAX_BIT_POS := by simp only [I2C_MAX_BIT_POS]; omega
  obtain ⟨h1, h2, _⟩ := toggle_xor_byte p (by omega) _ hbyte
  simp only [I2CParallel.toggleBit, I2CParallel.setBit, I2CParallel.clrBit, I2CParallel.setOr,
    I2CParallel.setAnd, I2CParallel.setXor, if_neg hn]
  split_ifs with hb
  · rw [h1 hb]
  · rw [h2 (not_not.mp hb)]

/-- C21: for every variant, every 8-bit output state `s` and every bit position `p` in
0..7, `toggleBit(p)` leaves `outputState` equal to `s XOR (1 << p)`; it has the same return
value, transport trace and resulting state as `setXor(1 << p)`; and every call it makes is
a write-side call, so the decision is taken from the stored `outputState` without a read
transaction. -/
theorem C21_toggleBit_is_setXor (p : Nat) (s : Sys) (hp : p ≤ 7)
    (hbyte : s.dev._outputState < 256) :
    (I2CParallel.toggleBit p s).2.dev._outputState = s.dev._outputState ^^^ (1 <<< p) ∧
      I2CParallel.toggleBit p s = I2CParallel.setXor (1 <<< p) s ∧
      (∃ l, (I2CParallel.toggleBit p s).2.hw.trace = s.hw.trace ++ l ∧
        ∀ c ∈ l, c.isRead = false) := by
  have heq := toggleBit_eq_setXor p s hp hbyte
  refine ⟨?_, heq, ?_⟩
  · rw [heq]
    simp only [I2CParallel.setXor, setByte_outputState]
    exact (toggle_xor_byte p (by omega) _ hbyte).2.2
  · rw [heq]
    exact setByte_trace_no_read _ s

/-- C21, witness: output 0xAA, `toggleBit(0)` gives 0xAB. -/
theorem C21_witness :
    (0 : Nat) ≤ 7 ∧
    (I2CParallel.setByte 0xAA (Example.sys9534 [1, 1, 1, 1])).2.dev._outputState < 256 ∧
    (I2CParallel.toggleBit 0
      (I2CParallel.setByte 0xAA (Example.sys9534 [1, 1, 1, 1])).2).2.dev._outputState = 0xAB ∧
    (I2CParallel.toggleBit 0
      (I2CParallel.setByte 0xAA (Example.sys9534 [1, 1, 1, 1])).2).2.dev._outputState =
      (I2CParallel.setByte 0xAA (Example.sys9534 [1, 1, 1, 1])).2.dev._outputState
        ^^^ (1 <<< 0) :=
  ⟨by decide, by decide, by decide,
    (C21_toggleBit_is_setXor 0 (I2CParallel.setByte 0xAA (Example.sys9534 [1, 1, 1, 1])).2
      (by decide) (by decide)).1⟩

/-! ## Separate state of reads and writes -/

/-- A write changes neither the input state nor the stored address. -/
theorem setByte_frame (v : Nat) (s : Sys) :
    (I2CParallel.setByte v s).2.dev._inputState = s.dev._inputState ∧
      (I2CParallel.setByte v s).2.dev._i2cAddr = s.dev._i2cAddr := by
  by_cases h : s.dev._i2cAddr = UNINITIALIZED_I2C_ADDR
  · unfold I2CParallel.setByte
    split
    · rw [setByte8574_uninit v s h]; exact ⟨rfl, rfl⟩
    · rw [setByte9534_uninit v s h]; exact ⟨rfl, rfl⟩
    · rw [setByte9534_uninit v s h]; exact ⟨rfl, rfl⟩
  · unfold I2CParallel.setByte
    split
    · rw [setByte8574_init v s h]
      split_ifs <;> exact ⟨rfl, rfl⟩
    · rw [setByte9534_init v s h]
      split_ifs <;> exact ⟨rfl, rfl⟩
    · rw [setByte9534_init v s h]
      split_ifs <;> exact ⟨rfl, rfl⟩

/-- A read changes neither the output state nor the stored address. -/
theorem getByte_frame (s : Sys) :
    (I2CParallel.getByte s).sys.dev._outputState = s.dev._outputState ∧
      (I2CParallel.getByte s).sys.dev._i2cAddr = s.dev._i2cAddr := by
  by_cases h : s.dev._i2cAddr = UNINITIALIZED_I2C_ADDR
  · unfold I2CParallel.getByte
    split
    · rw [getByte8574_uninit s h]; exact ⟨rfl, rfl⟩
    · rw [getByte9534_uninit s h]; exact ⟨rfl, rfl⟩
    · rw [getByte9534_uninit s h]; exact ⟨rfl, rfl⟩
  · unfold I2CParallel.getByte
    split
    · rw [getByte8574_init s h]
      split_ifs <;> exact ⟨rfl, rfl⟩
    · rw [getByte9534_init s h]
      split_ifs <;> exact ⟨rfl, rfl⟩
    · rw [getByte9534_init s h]
      split_ifs <;> exact ⟨rfl, rfl⟩

/-- C22: reads and writes keep separate state.  For every variant and every transport
behaviour, `setByte`, `setOr`, `setAnd`, `setXor`, `setBit`, `clrBit`, `toggleBit` and
`increment` change neither `inputState` nor the stored address; `getByte` changes neither
`outputState` nor the stored address; and `enableInputs` of the register-addressed classes
changes none of `outputState`, `inputState`, the address and `polarityState`. -/
theorem C22_reads_and_writes_keep_separate_state (s : Sys) (v p : Nat) :
    ((I2CParallel.setByte v s).2.dev._inputState = s.dev._inputState ∧
      (I2CParallel.setByte v s).2.dev._i2cAddr = s.dev._i2cAddr) ∧
    ((I2CParallel.setOr v s).2.dev._inputState = s.dev._inputState ∧
      (I2CParallel.setOr v s).2.dev._i2cAddr = s.dev._i2cAddr) ∧
    ((I2CParallel.setAnd v s).2.dev._inputState = s.dev._inputState ∧
      (I2CParallel.setAnd v s).2.dev._i2cAddr = s.dev._i2cAddr) ∧
    ((I2CParallel.setXor v s).2.dev._inputState = s.dev._inputState ∧
      (I2CParallel.setXor v s).2.dev._i2cAddr = s.dev._i2cAddr) ∧
    ((I2CParallel.setBit p s).2.dev._inputState = s.dev._inputState ∧
      (I2CParallel.setBit p s).2.dev._i2cAddr = s.dev._i2cAddr) ∧
    ((I2CParallel.clrBit p s).2.dev._inputState = s.dev._inputState ∧
      (I2CParallel.clrBit p s).2.dev._i2cAddr = s.dev._i2cAddr) ∧
    ((I2CParallel.toggleBit p s).2.dev._inputState = s.dev._inputState ∧
      (I2CParallel.toggleBit p s).2.dev._i2cAddr = s.dev._i2cAddr) ∧
    ((I2CParallel.increment s).2.dev._inputState = s.dev._inputState ∧
      (I2CParallel.increment s).2.dev._i2cAddr = s.dev._i2cAddr) ∧
    ((I2CParallel.getByte s).sys.dev._outputState = s.dev._outputState ∧
      (I2CParallel.getByte s).sys.dev._i2cAddr = s.dev._i2cAddr) ∧
    ((I2CParallel9534.enableInputs v s).dev._outputState = s.dev._outputState ∧
      (I2CParallel9534.enableInputs v s).dev._inputState = s.dev._inputState ∧
      (I2CParallel9534.enableInputs v s).dev._i2cAddr = s.dev._i2cAddr ∧
      (I2CParallel9534.enableInputs v s).dev._polarityState = s.dev._polarityState) := by
  refine ⟨setByte_frame v s, setByte_frame _ s, setByte_frame _ s, setByte_frame _ s,
    ?_, ?_, ?_, ?_, getByte_frame s, ?_⟩
  · simp only [I2CParallel.setBit, I2CParallel.setOr]
    split_ifs
    · exact ⟨rfl, rfl⟩
    · exact setByte_frame _ s
  · simp only [I2CParallel.clrBit, I2CParallel.setAnd]
    split_ifs
    · exact ⟨rfl, rfl⟩
    · exact setByte_frame _ s
  · simp only [I2CParallel.toggleBit, I2CParallel.setBit, I2CParallel.clrBit,
      I2CParallel.setOr, I2CParallel.setAnd]
    split_ifs
    · exact ⟨rfl, rfl⟩
    · exact setByte_frame _ s
    · exact setByte_frame _ s
  · simp only [I2CParallel.increment]
    split_ifs
    · exact setByte_frame 0 { s with dev := { s.dev with _error := I2C_PARALLEL_ERR_CARRY } }
    · exact setByte_frame _ s
  · by_cases h : s.dev._i2cAddr = UNINITIALIZED_I2C_ADDR
    · rw [enableInputs9534_uninit v s h]; exact ⟨rfl, rfl, rfl, rfl⟩
    · rw [enableInputs9534_init v s h]; exact ⟨rfl, rfl, rfl, rfl⟩


end I2CParallel2
